import Mathlib

/-!
Verification of the kicad6 SVG generator of the skidl repository
(`src/skidl/tools/kicad6/gen_svg.py`).

The Python module is shallowly embedded: the dynamically typed values the
module passes around (strings, numbers, nested lists, dicts produced by
`draw_cmd_to_dict`) become the inductive type `Value`; Python exceptions
become the error side of `Except PyErr`; the insertion-ordered Python dict
becomes an association list.  Numbers are modelled by `ℚ` (the module does
exact comparisons such as `width == 0` on them); the trigonometric parts
(`get_pin_info`, the arc branch) are modelled over `ℝ`.
-/

namespace SkidlSvg

/-- A Python runtime error, as raised by the embedded code. -/
inductive PyErr where
  | keyError : String → PyErr
  | typeError : PyErr
  | indexError : PyErr
  | attributeError : PyErr
  | nameError : String → PyErr
  | unboundLocalError : PyErr
  | runtimeError : String → PyErr
deriving DecidableEq

/-- A dynamically typed Python value as used in `gen_svg.py`: scalar tokens
(symbols/strings and numbers), nested lists from the KiCad s-expression AST,
and the insertion-ordered dicts built by `draw_cmd_to_dict`. -/
inductive Value where
  | str : String → Value
  | num : ℚ → Value
  | list : List Value → Value
  | dict : List (String × Value) → Value

mutual

/-- Boolean equality test for `Value` (Python `==` on these values). -/
def Value.beq : Value → Value → Bool
  | .str a, .str b => a = b
  | .num a, .num b => a = b
  | .list xs, .list ys => Value.beqList xs ys
  | .dict xs, .dict ys => Value.beqDict xs ys
  | _, _ => false
termination_by a _ => sizeOf a

/-- Elementwise equality test for lists of values. -/
def Value.beqList : List Value → List Value → Bool
  | [], [] => true
  | x :: xs, y :: ys => Value.beq x y && Value.beqList xs ys
  | _, _ => false
termination_by xs _ => sizeOf xs

/-- Entrywise equality test for dict entry lists. -/
def Value.beqDict : List (String × Value) → List (String × Value) → Bool
  | [], [] => true
  | (k, v) :: xs, (k', v') :: ys => k = k' && Value.beq v v' && Value.beqDict xs ys
  | _, _ => false
termination_by xs _ => sizeOf xs

end

mutual

/-- `Value.beq` decides equality. -/
theorem Value.beq_iff : ∀ a b : Value, Value.beq a b = true ↔ a = b
  | .str a, .str b => by simp [Value.beq]
  | .str _, .num _ => by simp [Value.beq]
  | .str _, .list _ => by simp [Value.beq]
  | .str _, .dict _ => by simp [Value.beq]
  | .num _, .str _ => by simp [Value.beq]
  | .num a, .num b => by simp [Value.beq]
  | .num _, .list _ => by simp [Value.beq]
  | .num _, .dict _ => by simp [Value.beq]
  | .list _, .str _ => by simp [Value.beq]
  | .list _, .num _ => by simp [Value.beq]
  | .list xs, .list ys => by
      simp only [Value.beq, Value.beqList_iff xs ys, Value.list.injEq]
  | .list _, .dict _ => by simp [Value.beq]
  | .dict _, .str _ => by simp [Value.beq]
  | .dict _, .num _ => by simp [Value.beq]
  | .dict _, .list _ => by simp [Value.beq]
  | .dict xs, .dict ys => by
      simp only [Value.beq, Value.beqDict_iff xs ys, Value.dict.injEq]
termination_by a _ => sizeOf a

/-- `Value.beqList` decides equality of value lists. -/
theorem Value.beqList_iff : ∀ xs ys : List Value, Value.beqList xs ys = true ↔ xs = ys
  | [], [] => by simp [Value.beqList]
  | [], _ :: _ => by simp [Value.beqList]
  | _ :: _, [] => by simp [Value.beqList]
  | x :: xs, y :: ys => by
      simp only [Value.beqList, Bool.and_eq_true, Value.beq_iff x y,
        Value.beqList_iff xs ys, List.cons.injEq]
termination_by xs _ => sizeOf xs

/-- `Value.beqDict` decides equality of dict entry lists. -/
theorem Value.beqDict_iff :
    ∀ xs ys : List (String × Value), Value.beqDict xs ys = true ↔ xs = ys
  | [], [] => by simp [Value.beqDict]
  | [], _ :: _ => by simp [Value.beqDict]
  | _ :: _, [] => by simp [Value.beqDict]
  | (k, v) :: xs, (k', v') :: ys => by
      simp only [Value.beqDict, Bool.and_eq_true, Value.beq_iff v v',
        Value.beqDict_iff xs ys, List.cons.injEq, Prod.mk.injEq, decide_eq_true_eq]
termination_by xs _ => sizeOf xs

end

instance : DecidableEq Value := fun a b => decidable_of_iff _ (Value.beq_iff a b)

/-- Lookup in an insertion-ordered dict (Python `d[k]` / `k in d` on dicts). -/
def dlookup {α : Type} : List (String × α) → String → Option α
  | [], _ => none
  | (k, v) :: rest, key => if k = key then some v else dlookup rest key

/-- Python dict assignment `d[key] = x`: update in place when the key exists
(keeping its position), append otherwise. -/
def dset {α : Type} : List (String × α) → String → α → List (String × α)
  | [], key, x => [(key, x)]
  | (k, v) :: rest, key, x =>
      if k = key then (k, x) :: rest else (k, v) :: dset rest key x

/-- Lines 51-56 of `draw_cmd_to_dict`: `if item_name not in d: d[item_name] =
[item_dict]  else: d[item_name].append(item_dict)`. -/
def dsetAppend (d : List (String × List Value)) (key : String) (x : Value) :
    List (String × List Value) :=
  match dlookup d key with
  | none => d ++ [(key, [x])]
  | some vs => dset d key (vs ++ [x])

/-- Lines 58-61: `for item_name in item_names: if len(d[item_name]) == 1:
d[item_name] = d[item_name][0]`.  `item_names` holds exactly the keys of `d`
in first-seen order and each key is processed once, so the loop is the map
below over the accumulated dict. -/
def delistD (d : List (String × List Value)) : List (String × Value) :=
  d.map (fun p => (p.1, match p.2 with
    | [v] => v
    | vs => Value.list vs))

/-- Whether a Python value is a list (`isinstance(item, list)`, line 40). -/
def Value.isList : Value → Bool
  | .list _ => true
  | _ => false

mutual

/-- `draw_cmd_to_dict` (lines 27-66): converts one nested-list drawing command
into a `(kind, value)` pair.  `symbol[0].value()` needs a symbol token
(attribute error otherwise, index error on an empty command); nested children
recurse and are keyed by their resolved kind, scalars are keyed `"misc"`;
same-key values accumulate in order; singleton lists are de-listed; and when
no nested child was seen the result degenerates to `d["misc"]` (a key error
when there were no children at all). -/
def draw_cmd_to_dict : Value → Except PyErr (String × Value)
  | .list (head :: items) =>
    (match head with
     | .str nm =>
       (match convertItems items [] false with
        | .error e => .error e
        | .ok (d, named) =>
          let d2 := delistD d
          if named then .ok (nm, .dict d2)
          else
            match dlookup d2 "misc" with
            | some v => .ok (nm, v)
            | none => .error (.keyError "misc"))
     | _ => .error .attributeError)
  | .list [] => .error .indexError
  | _ => .error .typeError
termination_by v => sizeOf v

/-- The item loop of `draw_cmd_to_dict` (lines 38-56), with the accumulated
dict and the `is_named_present` flag threaded through. -/
def convertItems : List Value → List (String × List Value) → Bool →
    Except PyErr (List (String × List Value) × Bool)
  | [], d, named => .ok (d, named)
  | .list xs :: rest, d, _ =>
    (match draw_cmd_to_dict (.list xs) with
     | .error e => .error e
     | .ok (k, v) => convertItems rest (dsetAppend d k v) true)
  | .str s :: rest, d, named => convertItems rest (dsetAppend d "misc" (.str s)) named
  | .num q :: rest, d, named => convertItems rest (dsetAppend d "misc" (.num q)) named
  | .dict d0 :: rest, d, named => convertItems rest (dsetAppend d "misc" (.dict d0)) named
termination_by items _ _ => sizeOf items

end

/-- The key/value contribution of one child item (lines 38-47): a nested
command contributes its resolved kind and converted value, a scalar
contributes itself under the key `"misc"`. -/
def itemKV (item : Value) : Except PyErr (String × Value) :=
  match item with
  | .list xs => draw_cmd_to_dict (.list xs)
  | x => .ok ("misc", x)

/-- All key/value contributions of a child list, left to right, stopping at
the first error (as the Python loop does). -/
def itemKVs : List Value → Except PyErr (List (String × Value))
  | [] => .ok []
  | i :: rest =>
    match itemKV i with
    | .error e => .error e
    | .ok kv =>
      match itemKVs rest with
      | .error e => .error e
      | .ok kvs => .ok (kv :: kvs)

/-- The accumulation loop is the fold of `dsetAppend` over the item
contributions, and `is_named_present` is whether some child is a list. -/
theorem convertItems_eq (items : List Value) : ∀ (d : List (String × List Value)) (named : Bool),
    convertItems items d named =
      match itemKVs items with
      | .error e => .error e
      | .ok kvs => .ok (kvs.foldl (fun acc kv => dsetAppend acc kv.1 kv.2) d,
          named || items.any Value.isList) := by
  induction items with
  | nil => intro d named; simp [convertItems, itemKVs]
  | cons i rest ih =>
    intro d named
    cases i with
    | list xs =>
      cases h : draw_cmd_to_dict (.list xs) with
      | error e => simp [convertItems, itemKVs, itemKV, h]
      | ok kv =>
        cases hr : itemKVs rest with
        | error e => simp [convertItems, itemKVs, itemKV, h, hr, ih]
        | ok kvs => simp [convertItems, itemKVs, itemKV, h, hr, ih, Value.isList]
    | str s =>
      cases hr : itemKVs rest with
      | error e => simp [convertItems, itemKVs, itemKV, hr, ih]
      | ok kvs => simp [convertItems, itemKVs, itemKV, hr, ih, Value.isList]
    | num q =>
      cases hr : itemKVs rest with
      | error e => simp [convertItems, itemKVs, itemKV, hr, ih]
      | ok kvs => simp [convertItems, itemKVs, itemKV, hr, ih, Value.isList]
    | dict d0 =>
      cases hr : itemKVs rest with
      | error e => simp [convertItems, itemKVs, itemKV, hr, ih]
      | ok kvs => simp [convertItems, itemKVs, itemKV, hr, ih, Value.isList]

theorem dlookup_dset_self {α : Type} (d : List (String × α)) (k : String) (x : α) :
    dlookup (dset d k x) k = some x := by
  induction d with
  | nil => simp [dset, dlookup]
  | cons p rest ih =>
    by_cases h : p.1 = k
    · simp [dset, dlookup, h]
    · cases p; simp_all [dset, dlookup]

theorem dlookup_dset_ne {α : Type} (d : List (String × α)) (k k' : String) (x : α)
    (h : k' ≠ k) : dlookup (dset d k x) k' = dlookup d k' := by
  induction d with
  | nil => simp [dset, dlookup, Ne.symm h]
  | cons p rest ih =>
    cases p with
    | mk k0 v0 =>
      by_cases h0 : k0 = k
      · subst h0; simp [dset, dlookup, Ne.symm h]
      · simp [dset, dlookup, h0, ih]

theorem dlookup_append {α : Type} (d1 d2 : List (String × α)) (k : String) :
    dlookup (d1 ++ d2) k =
      match dlookup d1 k with
      | some v => some v
      | none => dlookup d2 k := by
  induction d1 with
  | nil => simp [dlookup]
  | cons p rest ih =>
    cases p with
    | mk k0 v0 =>
      by_cases h0 : k0 = k
      · simp [dlookup, h0]
      · simp [dlookup, h0, ih]

theorem dlookup_dsetAppend_self (d : List (String × List Value)) (k : String) (x : Value) :
    dlookup (dsetAppend d k x) k = some ((dlookup d k).getD [] ++ [x]) := by
  unfold dsetAppend
  cases h : dlookup d k with
  | none => simp [dlookup_append, h, dlookup]
  | some vs => simp [dlookup_dset_self, h]

theorem dlookup_dsetAppend_ne (d : List (String × List Value)) (k k' : String) (x : Value)
    (h : k' ≠ k) : dlookup (dsetAppend d k x) k' = dlookup d k' := by
  unfold dsetAppend
  cases h0 : dlookup d k with
  | none =>
    rw [dlookup_append]
    cases h1 : dlookup d k' with
    | none => simp [dlookup, Ne.symm h]
    | some vs => simp
  | some vs => rw [dlookup_dset_ne _ _ _ _ h]

/-- What the accumulation fold stores at each key: the values contributed to
that key, in original order. -/
theorem dlookup_foldl_dsetAppend (kvs : List (String × Value)) :
    ∀ (acc : List (String × List Value)) (k : String),
    dlookup (kvs.foldl (fun a kv => dsetAppend a kv.1 kv.2) acc) k =
      match dlookup acc k with
      | some vs => some (vs ++ (kvs.filter (fun kv => kv.1 == k)).map Prod.snd)
      | none =>
        if (kvs.filter (fun kv => kv.1 == k)).isEmpty then none
        else some ((kvs.filter (fun kv => kv.1 == k)).map Prod.snd) := by
  induction kvs with
  | nil =>
    intro acc k
    cases h : dlookup acc k <;> simp [h]
  | cons kv rest ih =>
    intro acc k
    cases kv with
    | mk k0 v0 =>
      by_cases hk : k0 = k
      · subst hk
        rw [List.foldl_cons, ih]
        rw [dlookup_dsetAppend_self]
        cases h : dlookup acc k0 <;> simp [h]
      · rw [List.foldl_cons, ih]
        rw [dlookup_dsetAppend_ne _ _ _ _ (fun hh => hk hh.symm)]
        have : ((k0, v0) :: rest).filter (fun kv => kv.1 == k) =
            rest.filter (fun kv => kv.1 == k) := by
          simp [List.filter_cons, hk]
        rw [this]

/-- The de-listing applied to a single key's accumulated list. -/
def delistOne : List Value → Value
  | [v] => v
  | vs => Value.list vs

theorem delistD_eq (d : List (String × List Value)) :
    delistD d = d.map (fun p => (p.1, delistOne p.2)) := by
  unfold delistD delistOne
  rfl

theorem dlookup_delistD (d : List (String × List Value)) (k : String) :
    dlookup (delistD d) k = (dlookup d k).map delistOne := by
  rw [delistD_eq]
  induction d with
  | nil => simp [dlookup]
  | cons p rest ih =>
    cases p with
    | mk k0 vs =>
      by_cases h0 : k0 = k
      · simp [dlookup, h0]
      · simp [dlookup, h0, ih]

theorem delistOne_of_two_le (vs : List Value) (h : 2 ≤ vs.length) :
    delistOne vs = Value.list vs := by
  match vs with
  | [] => rfl
  | [v] => simp at h
  | _ :: _ :: _ => rfl

/-- Unfolding of `draw_cmd_to_dict` on a labelled command through the fold
characterization. -/
theorem draw_cmd_to_dict_eq (nm : String) (items : List Value)
    (kvs : List (String × Value)) (hconv : itemKVs items = .ok kvs) :
    draw_cmd_to_dict (.list (.str nm :: items)) =
      (let d2 := delistD (kvs.foldl (fun a kv => dsetAppend a kv.1 kv.2) [])
       if items.any Value.isList then .ok (nm, .dict d2)
       else
         match dlookup d2 "misc" with
         | some v => .ok (nm, v)
         | none => .error (.keyError "misc")) := by
  rw [draw_cmd_to_dict]
  rw [convertItems_eq, hconv]
  simp

/-- C1: a command whose children contribute exactly two values to kind `k`
gets a two-element ordered list under `k`; exactly one contribution gives the
bare converted value.  (`kvs` are the per-child key/value contributions:
nested sub-commands under their resolved kind, scalars under `"misc"`.) -/
theorem draw_cmd_to_dict_same_kind_children (nm k : String) (items : List Value)
    (kvs : List (String × Value))
    (hconv : itemKVs items = .ok kvs)
    (hnamed : items.any Value.isList = true) :
    (∀ v1 v2, (kvs.filter (fun kv => kv.1 == k)).map Prod.snd = [v1, v2] →
      ∃ d, draw_cmd_to_dict (.list (.str nm :: items)) = .ok (nm, .dict d) ∧
        dlookup d k = some (.list [v1, v2])) ∧
    (∀ v1, (kvs.filter (fun kv => kv.1 == k)).map Prod.snd = [v1] →
      ∃ d, draw_cmd_to_dict (.list (.str nm :: items)) = .ok (nm, .dict d) ∧
        dlookup d k = some v1) := by
  rw [draw_cmd_to_dict_eq nm items kvs hconv]
  simp only [hnamed, if_true]
  constructor
  · intro v1 v2 hfilter
    refine ⟨_, rfl, ?_⟩
    rw [dlookup_delistD, dlookup_foldl_dsetAppend]
    simp only [dlookup]
    have hne : (kvs.filter (fun kv => kv.1 == k)).isEmpty = false := by
      cases hf : kvs.filter (fun kv => kv.1 == k) with
      | nil => rw [hf] at hfilter; simp at hfilter
      | cons a l => simp
    rw [hne]
    simp [hfilter, delistOne]
  · intro v1 hfilter
    refine ⟨_, rfl, ?_⟩
    rw [dlookup_delistD, dlookup_foldl_dsetAppend]
    simp only [dlookup]
    have hne : (kvs.filter (fun kv => kv.1 == k)).isEmpty = false := by
      cases hf : kvs.filter (fun kv => kv.1 == k) with
      | nil => rw [hf] at hfilter; simp at hfilter
      | cons a l => simp
    rw [hne]
    simp [hfilter, delistOne]

/-- Witness for C1 at the concrete commands
`(pts (xy 0 0) (xy 1 0))` and `(pts (xy 0 0))`. -/
theorem draw_cmd_to_dict_same_kind_children_witness :
    (∃ d, draw_cmd_to_dict (.list [.str "pts", .list [.str "xy", .num 0, .num 0],
        .list [.str "xy", .num 1, .num 0]]) = .ok ("pts", .dict d) ∧
      dlookup d "xy" = some (.list [.list [.num 0, .num 0], .list [.num 1, .num 0]])) ∧
    (∃ d, draw_cmd_to_dict (.list [.str "pts", .list [.str "xy", .num 0, .num 0]]) =
        .ok ("pts", .dict d) ∧
      dlookup d "xy" = some (.list [.num 0, .num 0])) := by
  constructor
  · exact (draw_cmd_to_dict_same_kind_children "pts" "xy"
      [.list [.str "xy", .num 0, .num 0], .list [.str "xy", .num 1, .num 0]]
      [("xy", .list [.num 0, .num 0]), ("xy", .list [.num 1, .num 0])]
      (by simp [itemKVs, itemKV, draw_cmd_to_dict, convertItems, dsetAppend, dset,
        dlookup, delistD])
      (by simp [Value.isList])).1
      (.list [.num 0, .num 0]) (.list [.num 1, .num 0]) (by simp [dlookup])
  · exact (draw_cmd_to_dict_same_kind_children "pts" "xy"
      [.list [.str "xy", .num 0, .num 0]]
      [("xy", .list [.num 0, .num 0])]
      (by simp [itemKVs, itemKV, draw_cmd_to_dict, convertItems, dsetAppend, dset,
        dlookup, delistD])
      (by simp [Value.isList])).2
      (.list [.num 0, .num 0]) (by simp [dlookup])

/-- All-scalar child lists contribute everything to `"misc"`. -/
theorem itemKVs_of_no_list (items : List Value) (h : items.any Value.isList = false) :
    itemKVs items = .ok (items.map (fun x => ("misc", x))) := by
  induction items with
  | nil => simp [itemKVs]
  | cons i rest ih =>
    simp only [List.any_cons, Bool.or_eq_false_iff] at h
    cases i with
    | list xs => simp [Value.isList] at h
    | str s => simp [itemKVs, itemKV, ih h.2]
    | num q => simp [itemKVs, itemKV, ih h.2]
    | dict d0 => simp [itemKVs, itemKV, ih h.2]

/-- C7 counterexample: a command with exactly one scalar child returns the
bare scalar, not the one-element list the claim requires. -/
theorem draw_cmd_to_dict_one_scalar_counterexample :
    draw_cmd_to_dict (.list [.str "foo", .num 5]) = .ok ("foo", .num 5) ∧
      Value.num 5 ≠ Value.list [.num 5] := by
  constructor
  · simp [draw_cmd_to_dict, convertItems, delistD, dlookup, dsetAppend, dset]
  · simp

/-- C7 (amended): a command with no nested-command children and at least two
scalar children yields the plain ordered list of those children; with exactly
one scalar child it yields that child bare; with no children it raises
(`draw_cmd_to_dict_no_children_keyerror`). -/
theorem draw_cmd_to_dict_all_scalar (nm : String) (items : List Value)
    (hscalar : items.any Value.isList = false)
    (hlen : 2 ≤ items.length) :
    draw_cmd_to_dict (.list (.str nm :: items)) = .ok (nm, .list items) ∧
    (∀ x : Value, Value.isList x = false →
      draw_cmd_to_dict (.list [.str nm, x]) = .ok (nm, x)) := by
  constructor
  · rw [draw_cmd_to_dict_eq nm items _ (itemKVs_of_no_list items hscalar)]
    simp only [hscalar, if_false, Bool.false_eq_true]
    have hlook :
        dlookup (delistD (List.foldl (fun a kv => dsetAppend a kv.1 kv.2) []
          (items.map (fun x => ("misc", x))))) "misc" = some (.list items) := by
      rw [dlookup_delistD, dlookup_foldl_dsetAppend]
      simp only [dlookup]
      have hfilter : ((items.map (fun x => ("misc", x))).filter
          (fun kv => kv.1 == "misc")) = items.map (fun x => ("misc", x)) := by
        apply List.filter_eq_self.2
        intro a ha
        simp only [List.mem_map] at ha
        obtain ⟨x, _, rfl⟩ := ha
        simp
      rw [hfilter]
      have hne : ((items.map (fun x => ("misc", x))).isEmpty) = false := by
        cases items with
        | nil => simp at hlen
        | cons a l => simp
      rw [hne]
      simp only [if_false, Bool.false_eq_true]
      have : (items.map (fun x => (("misc", x) : String × Value))).map Prod.snd = items := by
        simp
      rw [this]
      simp [delistOne_of_two_le items hlen]
    rw [hlook]
  · intro x hx
    cases x with
    | list xs => simp [Value.isList] at hx
    | str s => simp [draw_cmd_to_dict, convertItems, delistD, dlookup, dsetAppend, dset]
    | num q => simp [draw_cmd_to_dict, convertItems, delistD, dlookup, dsetAppend, dset]
    | dict d0 => simp [draw_cmd_to_dict, convertItems, delistD, dlookup, dsetAppend, dset]

/-- Witness for the amended C7 at `(foo 1 2)`. -/
theorem draw_cmd_to_dict_all_scalar_witness :
    draw_cmd_to_dict (.list [.str "foo", .num 1, .num 2]) =
      .ok ("foo", .list [.num 1, .num 2]) :=
  (draw_cmd_to_dict_all_scalar "foo" [.num 1, .num 2]
    (by simp [Value.isList]) (by simp)).1

/-- C9: a drawing command that is only a kind label (no children) raises
`KeyError("misc")` when the record degenerates to `d["misc"]` (line 64). -/
theorem draw_cmd_to_dict_no_children_keyerror (nm : String) :
    draw_cmd_to_dict (.list [.str nm]) = .error (.keyError "misc") := by
  simp [draw_cmd_to_dict, convertItems, delistD, dlookup]

/-- A compass side of a symbol, as carried in the `side` strings of
`gen_svg_comp` (lines 544-580). -/
inductive Side where
  | top
  | bottom
  | left
  | right
deriving DecidableEq, Fintype

/-- Side remap for `"H" in symtx` (lines 546-551). -/
def side_H : Side → Side
  | .right => .left
  | .top => .top
  | .left => .right
  | .bottom => .bottom

/-- Side remap for `"V" in symtx` (lines 553-558). -/
def side_V : Side → Side
  | .right => .right
  | .top => .bottom
  | .left => .left
  | .bottom => .top

/-- Side remap for `"L" in symtx` (lines 562-567). -/
def side_L : Side → Side
  | .right => .top
  | .top => .left
  | .left => .bottom
  | .bottom => .right

/-- Side remap for `"R" in symtx` (lines 572-577). -/
def side_R : Side → Side
  | .right => .bottom
  | .top => .right
  | .left => .top
  | .bottom => .left

/-- Python `"H" in symtx` for a one-character string: membership of the
character in the string. -/
def strHas (s : String) (c : Char) : Bool := s.toList.contains c

/-- The combined side lookup `gen_svg_comp` performs for one pin
(lines 544-580): the mirror table is applied first (`H` checked before `V`,
`elif`), then the rotation table (`L` checked before `R`, `elif`). -/
def remap_side (symtx : String) (s : Side) : Side :=
  let s1 :=
    if strHas symtx 'H' then side_H s
    else if strHas symtx 'V' then side_V s
    else s
  if strHas symtx 'L' then side_L s1
  else if strHas symtx 'R' then side_R s1
  else s1

/-- C3 counterexample: applying the rotate-right table and then the
mirror-horizontal table to side "top" gives "left", but the combined lookup
the code performs for a symmetry operator containing both "H" and "R" gives
"right" (the code applies the H table first, then the R table). -/
theorem side_tables_composition_counterexample :
    side_H (side_R .top) ≠ remap_side "HR" .top ∧
      side_H (side_R .top) = .left ∧ remap_side "HR" .top = .right := by decide

/-- C3 (amended): each of the four side-remapping tables is a total bijection
on \x7btop, bottom, left, right\x7d, and the combined lookup for a symmetry
operator containing both "H" and "R" applies the mirror-horizontal table
first and then the rotate-right table: `remap_side "HR" s = side_R (side_H
s)`; in particular at "top" it yields "right". -/
theorem side_tables_bijective_and_compose :
    Function.Bijective side_H ∧ Function.Bijective side_V ∧
    Function.Bijective side_L ∧ Function.Bijective side_R ∧
    (∀ s, remap_side "HR" s = side_R (side_H s)) ∧
    remap_side "HR" .top = .right := by decide

/-- Python equality of a value against a scalar constant (only used for
`== "default"` and `== 0`): equal scalars compare equal, any other value
compares unequal. -/
def beqScalar (v old : Value) : Bool :=
  match v, old with
  | .str a, .str b => a = b
  | .num a, .num b => a = b
  | _, _ => false

/-- Membership of a plain string in a Python list of values. -/
def listHasStr (xs : List Value) (k : String) : Bool :=
  xs.any (fun v => beqScalar v (.str k))

/-- Python `key in v` for a string key: key test on dicts, membership on
lists, substring test on strings; `in` on a number raises `TypeError`. -/
def pyContains : Value → String → Except PyErr Bool
  | .dict d, k => .ok (dlookup d k).isSome
  | .list xs, k => .ok (listHasStr xs k)
  | .str s, k => .ok (decide (List.IsInfix k.toList s.toList))
  | .num _, _ => .error .typeError

/-- Python `v[k]` for a string key: dict lookup (`KeyError` when absent);
subscripting a list or string by a string, or a number at all, raises
`TypeError`. -/
def pyGet : Value → String → Except PyErr Value
  | .dict d, k =>
    (match dlookup d k with
     | some v => .ok v
     | none => .error (.keyError k))
  | _, _ => .error .typeError

/-- Python `v[k] = x` for a string key, purified into returning the updated
value; assignment into a non-dict raises `TypeError`. -/
def pySet : Value → String → Value → Except PyErr Value
  | .dict d, k, x => .ok (.dict (dset d k x))
  | _, _, _ => .error .typeError

/-- One `if not key in shape: shape[key] = dflt` statement of
`draw_cmd_to_svg` (lines 120-121, 127-128, 131-132). -/
def ensure_key (shape : Value) (k : String) (dflt : Value) : Except PyErr Value :=
  match pyContains shape k with
  | .error e => .error e
  | .ok true => .ok shape
  | .ok false => pySet shape k dflt

/-- One `if not sub in shape[k]: shape[k][sub] = dflt` statement
(lines 122-125, 129-130), with the in-place mutation purified. -/
def ensure_subkey (shape : Value) (k sub : String) (dflt : Value) : Except PyErr Value :=
  match pyGet shape k with
  | .error e => .error e
  | .ok s =>
    match pyContains s sub with
    | .error e => .error e
    | .ok true => .ok shape
    | .ok false =>
      match pySet s sub dflt with
      | .error e => .error e
      | .ok s2 => pySet shape k s2

/-- One `if shape[k][sub] == old: shape[k][sub] = nw` statement
(lines 134-137). -/
def replace_if_eq (shape : Value) (k sub : String) (old nw : Value) :
    Except PyErr Value :=
  match pyGet shape k with
  | .error e => .error e
  | .ok s =>
    match pyGet s sub with
    | .error e => .error e
    | .ok t =>
      if beqScalar t old then
        match pySet s sub nw with
        | .error e => .error e
        | .ok s2 => pySet shape k s2
      else .ok shape

/-- Lines 120-125 of `draw_cmd_to_svg`: ensure `shape["stroke"]` exists and
carries `type` (default `"default"`) and `width` (default `0`). -/
def fill_defaults_A (shape : Value) : Except PyErr Value :=
  match ensure_key shape "stroke" (.dict []) with
  | .error e => .error e
  | .ok s1 =>
    match ensure_subkey s1 "stroke" "type" (.str "default") with
    | .error e => .error e
    | .ok s2 => ensure_subkey s2 "stroke" "width" (.num 0)

/-- Lines 127-132: ensure `shape["fill"]` exists with a `type` (default
`"none"`) and `shape["justify"]` exists (default `"right"`). -/
def fill_defaults_B (shape : Value) : Except PyErr Value :=
  match ensure_key shape "fill" (.dict []) with
  | .error e => .error e
  | .ok s4 =>
    match ensure_subkey s4 "fill" "type" (.str "none") with
    | .error e => .error e
    | .ok s5 => ensure_key s5 "justify" (.str "right")

/-- Lines 134-137: replace a `"default"` stroke type by `"#000"` and a `0`
stroke width by `0.1`. -/
def fill_defaults_C (shape : Value) : Except PyErr Value :=
  match replace_if_eq shape "stroke" "type" (.str "default") (.str "#000") with
  | .error e => .error e
  | .ok s7 => replace_if_eq s7 "stroke" "width" (.num 0) (.num (mkRat 1 10))

/-- The whole default-filling step of `draw_cmd_to_svg` (lines 117-137),
purified into a function from the shape record to the updated record. -/
def fill_defaults (shape : Value) : Except PyErr Value :=
  match fill_defaults_A shape with
  | .error e => .error e
  | .ok sA =>
    match fill_defaults_B sA with
    | .error e => .error e
    | .ok sB => fill_defaults_C sB

theorem dset_dset {α : Type} (d : List (String × α)) (k : String) (x y : α) :
    dset (dset d k x) k y = dset d k y := by
  induction d with
  | nil => simp [dset]
  | cons p rest ih =>
    cases p with
    | mk k0 v0 =>
      by_cases h0 : k0 = k
      · simp [dset, h0]
      · simp [dset, h0, ih]

theorem dset_self_of_lookup {α : Type} (d : List (String × α)) (k : String) (x : α)
    (h : dlookup d k = some x) : dset d k x = d := by
  induction d with
  | nil => simp [dlookup] at h
  | cons p rest ih =>
    cases p with
    | mk k0 v0 =>
      by_cases h0 : k0 = k
      · subst h0
        simp [dlookup] at h
        simp [dset, h]
      · simp [dlookup, h0] at h
        simp [dset, h0, ih h]

theorem ensure_key_dict_eq (d : List (String × Value)) (k : String) (dflt : Value) :
    ensure_key (.dict d) k dflt =
      .ok (.dict (if (dlookup d k).isSome then d else dset d k dflt)) := by
  cases h : dlookup d k <;> simp [ensure_key, pyContains, pySet, h]

theorem ensure_subkey_dict_eq (d : List (String × Value)) (sd : List (String × Value))
    (k sub : String) (dflt : Value) (h : dlookup d k = some (.dict sd)) :
    ensure_subkey (.dict d) k sub dflt =
      .ok (if (dlookup sd sub).isSome then .dict d
           else .dict (dset d k (.dict (dset sd sub dflt)))) := by
  cases hs : dlookup sd sub <;>
    simp [ensure_subkey, pyGet, pyContains, pySet, h, hs]

theorem replace_if_eq_dict_eq (d : List (String × Value)) (sd : List (String × Value))
    (k sub : String) (old nw t : Value)
    (h1 : dlookup d k = some (.dict sd)) (h2 : dlookup sd sub = some t) :
    replace_if_eq (.dict d) k sub old nw =
      .ok (if beqScalar t old then .dict (dset d k (.dict (dset sd sub nw)))
           else .dict d) := by
  cases hb : beqScalar t old <;>
    simp [replace_if_eq, pyGet, pySet, h1, h2, hb]

theorem ensure_key_ok_dict_out (v : Value) (k : String) (dflt : Value)
    (d2 : List (String × Value)) (h : ensure_key v k dflt = .ok (.dict d2)) :
    ∃ d0, v = .dict d0 ∧
      d2 = (if (dlookup d0 k).isSome then d0 else dset d0 k dflt) := by
  cases v with
  | dict d0 =>
    rw [ensure_key_dict_eq] at h
    simp only [Except.ok.injEq, Value.dict.injEq] at h
    exact ⟨d0, rfl, h.symm⟩
  | num q => simp [ensure_key, pyContains] at h
  | str s =>
    unfold ensure_key at h
    cases hb : pyContains (.str s) k with
    | error e => rw [hb] at h; simp at h
    | ok b => rw [hb] at h; cases b <;> simp [pySet] at h
  | list xs =>
    unfold ensure_key at h
    cases hb : pyContains (.list xs) k with
    | error e => rw [hb] at h; simp at h
    | ok b => rw [hb] at h; cases b <;> simp [pySet] at h

theorem ensure_subkey_in_dict (v : Value) (k sub : String) (dflt : Value) (w : Value)
    (h : ensure_subkey v k sub dflt = .ok w) : ∃ d0, v = .dict d0 := by
  cases v with
  | dict d0 => exact ⟨d0, rfl⟩
  | num q => simp [ensure_subkey, pyGet] at h
  | str s => simp [ensure_subkey, pyGet] at h
  | list xs => simp [ensure_subkey, pyGet] at h

theorem ensure_subkey_ok_dict (d : List (String × Value)) (k sub : String) (dflt : Value)
    (w : Value) (h : ensure_subkey (.dict d) k sub dflt = .ok w) :
    ∃ d2, w = .dict d2 ∧
      (∃ sv2, dlookup d2 k = some sv2 ∧ pyContains sv2 sub = .ok true) ∧
      (∀ k', k' ≠ k → dlookup d2 k' = dlookup d k') ∧
      (∀ sub', sub' ≠ sub →
        (∃ sv, dlookup d k = some sv ∧ pyContains sv sub' = .ok true) →
        (∃ sv2, dlookup d2 k = some sv2 ∧ pyContains sv2 sub' = .ok true)) := by
  cases hsv : dlookup d k with
  | none => simp [ensure_subkey, pyGet, hsv] at h
  | some sv =>
    have hstep : ensure_subkey (.dict d) k sub dflt =
        (match pyContains sv sub with
         | .error e => .error e
         | .ok true => .ok (.dict d)
         | .ok false =>
            match pySet sv sub dflt with
            | .error e => .error e
            | .ok s2 => pySet (.dict d) k s2) := by
      unfold ensure_subkey
      simp [pyGet, hsv]
    rw [hstep] at h
    cases hc : pyContains sv sub with
    | error e => rw [hc] at h; simp at h
    | ok b =>
      rw [hc] at h
      cases b with
      | true =>
        simp only [Except.ok.injEq] at h
        subst h
        refine ⟨d, rfl, ⟨sv, hsv, hc⟩, fun k' _ => rfl, ?_⟩
        intro sub' _ hx
        obtain ⟨sv1, he, hc1⟩ := hx
        obtain rfl : sv1 = sv := (Option.some.inj he).symm
        exact ⟨_, hsv, hc1⟩
      | false =>
        cases sv with
        | dict sd =>
          simp only [pySet, Except.ok.injEq] at h
          subst h
          refine ⟨_, rfl, ⟨.dict (dset sd sub dflt), dlookup_dset_self _ _ _, ?_⟩,
            fun k' hk' => dlookup_dset_ne _ _ _ _ hk', ?_⟩
          · simp [pyContains, dlookup_dset_self]
          · intro sub' hne hx
            obtain ⟨sv0, hsv0, hc0⟩ := hx
            obtain rfl : sv0 = Value.dict sd := (Option.some.inj hsv0).symm
            refine ⟨.dict (dset sd sub dflt), dlookup_dset_self _ _ _, ?_⟩
            simp only [pyContains] at hc0 ⊢
            rw [dlookup_dset_ne _ _ _ _ hne]
            exact hc0
        | num q => simp [pySet] at h
        | str s => simp [pySet] at h
        | list xs => simp [pySet] at h

theorem replace_if_eq_ok (v : Value) (k sub : String) (old nw : Value) (w : Value)
    (h : replace_if_eq v k sub old nw = .ok w) :
    ∃ d0 sd t d2, v = .dict d0 ∧ dlookup d0 k = some (.dict sd) ∧
      dlookup sd sub = some t ∧ w = .dict d2 ∧
      (∀ k', k' ≠ k → dlookup d2 k' = dlookup d0 k') ∧
      ((beqScalar t old = true ∧ d2 = dset d0 k (.dict (dset sd sub nw))) ∨
       (beqScalar t old = false ∧ d2 = d0)) := by
  cases v with
  | num q => simp [replace_if_eq, pyGet] at h
  | str s => simp [replace_if_eq, pyGet] at h
  | list xs => simp [replace_if_eq, pyGet] at h
  | dict d0 =>
    cases hsv : dlookup d0 k with
    | none => simp [replace_if_eq, pyGet, hsv] at h
    | some sv =>
      cases sv with
      | num q => simp [replace_if_eq, pyGet, hsv] at h
      | str s => simp [replace_if_eq, pyGet, hsv] at h
      | list xs => simp [replace_if_eq, pyGet, hsv] at h
      | dict sd =>
        cases ht : dlookup sd sub with
        | none => simp [replace_if_eq, pyGet, hsv, ht] at h
        | some t =>
          cases hb : beqScalar t old with
          | true =>
            rw [replace_if_eq_dict_eq d0 sd k sub old nw t hsv ht] at h
            rw [hb] at h
            simp only [if_true, Except.ok.injEq] at h
            subst h
            exact ⟨d0, sd, t, _, rfl, hsv, ht, rfl,
              fun k' hk' => dlookup_dset_ne _ _ _ _ hk', .inl ⟨hb, rfl⟩⟩
          | false =>
            rw [replace_if_eq_dict_eq d0 sd k sub old nw t hsv ht] at h
            rw [hb] at h
            simp only [Bool.false_eq_true, if_false, Except.ok.injEq] at h
            subst h
            exact ⟨d0, sd, t, d0, rfl, hsv, ht, rfl, fun _ _ => rfl,
              .inr ⟨hb, rfl⟩⟩

theorem fill_defaults_parts (v w : Value) (h : fill_defaults v = .ok w) :
    ∃ vA vB, fill_defaults_A v = .ok vA ∧ fill_defaults_B vA = .ok vB ∧
      fill_defaults_C vB = .ok w := by
  unfold fill_defaults at h
  cases hA : fill_defaults_A v with
  | error e => rw [hA] at h; simp at h
  | ok vA =>
    rw [hA] at h
    simp only [] at h
    cases hB : fill_defaults_B vA with
    | error e => rw [hB] at h; simp at h
    | ok vB =>
      rw [hB] at h
      simp only [] at h
      exact ⟨vA, vB, rfl, hB, h⟩

theorem fill_defaults_A_parts (v w : Value) (h : fill_defaults_A v = .ok w) :
    ∃ s1 s2, ensure_key v "stroke" (.dict []) = .ok s1 ∧
      ensure_subkey s1 "stroke" "type" (.str "default") = .ok s2 ∧
      ensure_subkey s2 "stroke" "width" (.num 0) = .ok w := by
  unfold fill_defaults_A at h
  cases h1 : ensure_key v "stroke" (.dict []) with
  | error e => rw [h1] at h; simp at h
  | ok s1 =>
    rw [h1] at h
    simp only [] at h
    cases h2 : ensure_subkey s1 "stroke" "type" (.str "default") with
    | error e => rw [h2] at h; simp at h
    | ok s2 =>
      rw [h2] at h
      simp only [] at h
      exact ⟨s1, s2, rfl, h2, h⟩

theorem fill_defaults_B_parts (v w : Value) (h : fill_defaults_B v = .ok w) :
    ∃ s4 s5, ensure_key v "fill" (.dict []) = .ok s4 ∧
      ensure_subkey s4 "fill" "type" (.str "none") = .ok s5 ∧
      ensure_key s5 "justify" (.str "right") = .ok w := by
  unfold fill_defaults_B at h
  cases h4 : ensure_key v "fill" (.dict []) with
  | error e => rw [h4] at h; simp at h
  | ok s4 =>
    rw [h4] at h
    simp only [] at h
    cases h5 : ensure_subkey s4 "fill" "type" (.str "none") with
    | error e => rw [h5] at h; simp at h
    | ok s5 =>
      rw [h5] at h
      simp only [] at h
      exact ⟨s4, s5, rfl, h5, h⟩

theorem fill_defaults_C_parts (v w : Value) (h : fill_defaults_C v = .ok w) :
    ∃ s7, replace_if_eq v "stroke" "type" (.str "default") (.str "#000") = .ok s7 ∧
      replace_if_eq s7 "stroke" "width" (.num 0) (.num (mkRat 1 10)) = .ok w := by
  unfold fill_defaults_C at h
  cases h7 : replace_if_eq v "stroke" "type" (.str "default") (.str "#000") with
  | error e => rw [h7] at h; simp at h
  | ok s7 =>
    rw [h7] at h
    simp only [] at h
    exact ⟨s7, rfl, h⟩

theorem fill_defaults_C_ok_facts (v w : Value) (h : fill_defaults_C v = .ok w) :
    ∃ d0 d8 sd8 t u, v = .dict d0 ∧ w = .dict d8 ∧
      dlookup d8 "stroke" = some (.dict sd8) ∧
      dlookup sd8 "type" = some t ∧ beqScalar t (.str "default") = false ∧
      dlookup sd8 "width" = some u ∧ beqScalar u (.num 0) = false ∧
      (∀ k', k' ≠ "stroke" → dlookup d8 k' = dlookup d0 k') := by
  obtain ⟨s7, h7, h8⟩ := fill_defaults_C_parts v w h
  obtain ⟨d0, sd, t0, d7, rfl, hs0, ht0, rfl, hpres7, hbr7⟩ :=
    replace_if_eq_ok _ _ _ _ _ _ h7
  obtain ⟨d7', sd7, u0, d8, he7, hs7, hu7, rfl, hpres8, hbr8⟩ :=
    replace_if_eq_ok _ _ _ _ _ _ h8
  obtain rfl : d7' = d7 := (Value.dict.inj he7).symm
  have hsd7_type : dlookup sd7 "type" = some t0 ∧ beqScalar t0 (.str "default") = false ∨
      dlookup sd7 "type" = some (.str "#000") := by
    rcases hbr7 with ⟨hb7, rfl⟩ | ⟨hb7, rfl⟩
    · right
      rw [dlookup_dset_self] at hs7
      obtain rfl : sd7 = dset sd "type" (.str "#000") := (Value.dict.inj (Option.some.inj hs7)).symm
      exact dlookup_dset_self _ _ _
    · left
      rw [hs0] at hs7
      obtain rfl : sd7 = sd := (Value.dict.inj (Option.some.inj hs7)).symm
      exact ⟨ht0, hb7⟩
  have htfact : ∃ t, dlookup sd7 "type" = some t ∧ beqScalar t (.str "default") = false := by
    rcases hsd7_type with ⟨h1, h2⟩ | h1
    · exact ⟨t0, h1, h2⟩
    · exact ⟨.str "#000", h1, by rfl⟩
  obtain ⟨t, htl, htb⟩ := htfact
  rcases hbr8 with ⟨hb8, rfl⟩ | ⟨hb8, rfl⟩
  · refine ⟨d0, _, dset sd7 "width" (.num (mkRat 1 10)), t, .num (mkRat 1 10), rfl, rfl,
      dlookup_dset_self _ _ _, ?_, htb, dlookup_dset_self _ _ _, by rfl, ?_⟩
    · rw [dlookup_dset_ne]
      · exact htl
      · decide
    · intro k' hk'
      rw [dlookup_dset_ne _ _ _ _ hk', hpres7 k' hk']
  · exact ⟨d0, _, sd7, t, u0, rfl, rfl, hs7, htl, htb, hu7, hb8,
      fun k' hk' => hpres7 k' hk'⟩

theorem fill_defaults_B_ok_facts (v w : Value) (h : fill_defaults_B v = .ok w) :
    ∃ d0 d6, v = .dict d0 ∧ w = .dict d6 ∧
      (∃ f, dlookup d6 "fill" = some f ∧ pyContains f "type" = .ok true) ∧
      (dlookup d6 "justify").isSome = true ∧
      (∀ k', k' ≠ "fill" → k' ≠ "justify" → dlookup d6 k' = dlookup d0 k') := by
  obtain ⟨s4, s5, h4, h5, h6⟩ := fill_defaults_B_parts v w h
  obtain ⟨d4, rfl⟩ := ensure_subkey_in_dict _ _ _ _ _ h5
  obtain ⟨d0, rfl, hd4⟩ := ensure_key_ok_dict_out _ _ _ _ h4
  obtain ⟨d5, rfl, ⟨f5, hf5, hc5⟩, hpres5, _⟩ := ensure_subkey_ok_dict _ _ _ _ _ h5
  rw [ensure_key_dict_eq] at h6
  simp only [Except.ok.injEq] at h6
  subst h6
  by_cases hj : (dlookup d5 "justify").isSome
  · rw [if_pos hj]
    refine ⟨d0, d5, rfl, rfl, ⟨f5, hf5, hc5⟩, hj, ?_⟩
    intro k' hkf hkj
    rw [hpres5 k' hkf]
    by_cases hsome : (dlookup d0 "fill").isSome
    · rw [hd4, if_pos hsome]
    · rw [hd4, if_neg hsome, dlookup_dset_ne _ _ _ _ hkf]
  · rw [if_neg hj]
    refine ⟨d0, _, rfl, rfl, ⟨f5, ?_, hc5⟩, ?_, ?_⟩
    · rw [dlookup_dset_ne]
      · exact hf5
      · decide
    · rw [dlookup_dset_self]; rfl
    · intro k' hkf hkj
      rw [dlookup_dset_ne _ _ _ _ hkj, hpres5 k' hkf]
      by_cases hsome : (dlookup d0 "fill").isSome
      · rw [hd4, if_pos hsome]
      · rw [hd4, if_neg hsome, dlookup_dset_ne _ _ _ _ hkf]

/-- The shape of a record on which `fill_defaults` acts as the identity:
exactly the records a successful pass produces. -/
def NormalizedShape (w : Value) : Prop :=
  ∃ d sd, w = .dict d ∧ dlookup d "stroke" = some (.dict sd) ∧
    (∃ t, dlookup sd "type" = some t ∧ beqScalar t (.str "default") = false) ∧
    (∃ u, dlookup sd "width" = some u ∧ beqScalar u (.num 0) = false) ∧
    (∃ f, dlookup d "fill" = some f ∧ pyContains f "type" = .ok true) ∧
    (dlookup d "justify").isSome = true

theorem fill_defaults_ok_normalized (v w : Value) (h : fill_defaults v = .ok w) :
    NormalizedShape w := by
  obtain ⟨vA, vB, hA, hB, hC⟩ := fill_defaults_parts v w h
  obtain ⟨d0, d6, rfl, rfl, hfill, hjust, hpresB⟩ := fill_defaults_B_ok_facts vA vB hB
  obtain ⟨d0', d8, sd8, t, u, he, rfl, hs, ht, htb, hu, hub, hpresC⟩ :=
    fill_defaults_C_ok_facts (.dict d6) w hC
  obtain rfl : d0' = d6 := (Value.dict.inj he).symm
  refine ⟨d8, sd8, rfl, hs, ⟨t, ht, htb⟩, ⟨u, hu, hub⟩, ?_, ?_⟩
  · obtain ⟨f, hf, hfc⟩ := hfill
    refine ⟨f, ?_, hfc⟩
    rw [hpresC "fill" (by decide)]
    exact hf
  · rw [hpresC "justify" (by decide)]
    exact hjust

theorem normalized_fill_defaults_fixed (w : Value) (hN : NormalizedShape w) :
    fill_defaults w = .ok w := by
  obtain ⟨d, sd, rfl, hs, ⟨t, ht, htb⟩, ⟨u, hu, hub⟩, ⟨f, hf, hfc⟩, hj⟩ := hN
  have e1 : ensure_key (.dict d) "stroke" (.dict []) = .ok (.dict d) := by
    rw [ensure_key_dict_eq]
    simp [hs]
  have e2 : ensure_subkey (.dict d) "stroke" "type" (.str "default") = .ok (.dict d) := by
    rw [ensure_subkey_dict_eq d sd _ _ _ hs]
    simp [ht]
  have e3 : ensure_subkey (.dict d) "stroke" "width" (.num 0) = .ok (.dict d) := by
    rw [ensure_subkey_dict_eq d sd _ _ _ hs]
    simp [hu]
  have e4 : ensure_key (.dict d) "fill" (.dict []) = .ok (.dict d) := by
    rw [ensure_key_dict_eq]
    simp [hf]
  have e5 : ensure_subkey (.dict d) "fill" "type" (.str "none") = .ok (.dict d) := by
    unfold ensure_subkey
    simp [pyGet, hf, hfc]
  have e6 : ensure_key (.dict d) "justify" (.str "right") = .ok (.dict d) := by
    rw [ensure_key_dict_eq]
    simp [hj]
  have e7 : replace_if_eq (.dict d) "stroke" "type" (.str "default") (.str "#000") =
      .ok (.dict d) := by
    rw [replace_if_eq_dict_eq d sd _ _ _ _ t hs ht]
    simp [htb]
  have e8 : replace_if_eq (.dict d) "stroke" "width" (.num 0) (.num (mkRat 1 10)) =
      .ok (.dict d) := by
    rw [replace_if_eq_dict_eq d sd _ _ _ _ u hs hu]
    simp [hub]
  have hA : fill_defaults_A (.dict d) = .ok (.dict d) := by
    unfold fill_defaults_A
    rw [e1]
    simp only [e2, e3]
  have hB : fill_defaults_B (.dict d) = .ok (.dict d) := by
    unfold fill_defaults_B
    rw [e4]
    simp only [e5, e6]
  have hC : fill_defaults_C (.dict d) = .ok (.dict d) := by
    unfold fill_defaults_C
    rw [e7]
    simp only [e8]
  unfold fill_defaults
  rw [hA]
  simp only [hB, hC]

theorem fill_defaults_idem (v : Value) :
    (fill_defaults v).bind fill_defaults = fill_defaults v := by
  cases h : fill_defaults v with
  | error e => rfl
  | ok w =>
    have hfix := normalized_fill_defaults_fixed w (fill_defaults_ok_normalized v w h)
    simp [Except.bind, hfix]

theorem fill_defaults_A_pres (v w : Value) (h : fill_defaults_A v = .ok w) :
    ∃ d0 dA, v = .dict d0 ∧ w = .dict dA ∧
      (∀ k', k' ≠ "stroke" → dlookup dA k' = dlookup d0 k') := by
  obtain ⟨s1, s2, h1, h2, h3⟩ := fill_defaults_A_parts v w h
  obtain ⟨d1, rfl⟩ := ensure_subkey_in_dict _ _ _ _ _ h2
  obtain ⟨d0, rfl, hd1⟩ := ensure_key_ok_dict_out _ _ _ _ h1
  obtain ⟨d2, rfl, _, hpres2, _⟩ := ensure_subkey_ok_dict _ _ _ _ _ h2
  obtain ⟨dA, rfl, _, hpres3, _⟩ := ensure_subkey_ok_dict _ _ _ _ _ h3
  refine ⟨d0, dA, rfl, rfl, ?_⟩
  intro k' hk'
  rw [hpres3 k' hk', hpres2 k' hk']
  by_cases hsome : (dlookup d0 "stroke").isSome
  · rw [hd1, if_pos hsome]
  · rw [hd1, if_neg hsome, dlookup_dset_ne _ _ _ _ hk']

theorem fill_defaults_B_defaults (d0 : List (String × Value)) (w : Value)
    (h : fill_defaults_B (.dict d0) = .ok w) :
    ∃ d6, w = .dict d6 ∧
      (dlookup d0 "fill" = none →
        dlookup d6 "fill" = some (.dict [("type", .str "none")])) ∧
      (dlookup d0 "justify" = none → dlookup d6 "justify" = some (.str "right")) := by
  obtain ⟨s4, s5, h4, h5, h6⟩ := fill_defaults_B_parts _ w h
  cases hf0 : dlookup d0 "fill" with
  | some f0 =>
    rw [ensure_key_dict_eq, hf0] at h4
    simp only [Option.isSome_some, if_true, Except.ok.injEq] at h4
    subst h4
    obtain ⟨d5, rfl, _, hpres5, _⟩ := ensure_subkey_ok_dict _ _ _ _ _ h5
    rw [ensure_key_dict_eq] at h6
    simp only [Except.ok.injEq] at h6
    subst h6
    by_cases hj5 : (dlookup d5 "justify").isSome
    · rw [if_pos hj5]
      refine ⟨d5, rfl, ?_, ?_⟩
      · intro hnone; simp at hnone
      · intro hjnone
        rw [hpres5 "justify" (by decide), hjnone] at hj5
        simp at hj5
    · rw [if_neg hj5]
      refine ⟨_, rfl, ?_, ?_⟩
      · intro hnone; simp at hnone
      · intro hjnone
        rw [dlookup_dset_self]
  | none =>
    rw [ensure_key_dict_eq, hf0] at h4
    simp only [Option.isSome_none, Bool.false_eq_true, if_false, Except.ok.injEq] at h4
    subst h4
    have hfe : dlookup (dset d0 "fill" (.dict [])) "fill" = some (.dict []) :=
      dlookup_dset_self _ _ _
    rw [ensure_subkey_dict_eq _ [] _ _ _ hfe] at h5
    simp only [dlookup, Option.isSome_none, Bool.false_eq_true, if_false,
      Except.ok.injEq] at h5
    subst h5
    rw [dset_dset] at h6
    rw [ensure_key_dict_eq] at h6
    simp only [Except.ok.injEq] at h6
    subst h6
    have hfill : dlookup (dset d0 "fill" (.dict (dset [] "type" (.str "none")))) "fill" =
        some (.dict [("type", .str "none")]) := dlookup_dset_self _ _ _
    by_cases hj5 : (dlookup (dset d0 "fill" (.dict (dset [] "type" (.str "none"))))
        "justify").isSome
    · rw [if_pos hj5]
      refine ⟨_, rfl, fun _ => hfill, ?_⟩
      intro hjnone
      rw [dlookup_dset_ne _ _ _ _ (by decide), hjnone] at hj5
      simp at hj5
    · rw [if_neg hj5]
      refine ⟨_, rfl, fun _ => ?_, fun _ => dlookup_dset_self _ _ _⟩
      rw [dlookup_dset_ne _ _ _ _ (by decide)]
      exact hfill

theorem fill_defaults_fill_justify_defaults (d0 : List (String × Value)) (w : Value)
    (h : fill_defaults (.dict d0) = .ok w) :
    ∃ dw, w = .dict dw ∧
      (dlookup d0 "fill" = none →
        dlookup dw "fill" = some (.dict [("type", .str "none")])) ∧
      (dlookup d0 "justify" = none → dlookup dw "justify" = some (.str "right")) := by
  obtain ⟨vA, vB, hA, hB, hC⟩ := fill_defaults_parts _ w h
  obtain ⟨d0', dA, he0, rfl, hpresA⟩ := fill_defaults_A_pres _ _ hA
  obtain rfl : d0' = d0 := (Value.dict.inj he0).symm
  obtain ⟨dB, rfl, hfillB, hjustB⟩ := fill_defaults_B_defaults dA vB hB
  obtain ⟨dB', dw, sdw, t, u, heB, rfl, _, _, _, _, _, hpresC⟩ :=
    fill_defaults_C_ok_facts _ w hC
  obtain rfl : dB' = dB := (Value.dict.inj heB).symm
  refine ⟨dw, rfl, ?_, ?_⟩
  · intro hnone
    rw [hpresC "fill" (by decide)]
    exact hfillB (by rw [hpresA "fill" (by decide)]; exact hnone)
  · intro hnone
    rw [hpresC "justify" (by decide)]
    exact hjustB (by rw [hpresA "justify" (by decide)]; exact hnone)

theorem fill_defaults_A_stroke_type (d0 : List (String × Value)) (w : Value)
    (h : fill_defaults_A (.dict d0) = .ok w)
    (hpre : dlookup d0 "stroke" = none ∨
      ∃ sd, dlookup d0 "stroke" = some (.dict sd) ∧
        (dlookup sd "type" = none ∨ dlookup sd "type" = some (.str "default"))) :
    ∃ dA sdA, w = .dict dA ∧ dlookup dA "stroke" = some (.dict sdA) ∧
      dlookup sdA "type" = some (.str "default") := by
  obtain ⟨s1, s2, h1, h2, h3⟩ := fill_defaults_A_parts _ w h
  rcases hpre with hnone | ⟨sd, hsd, hty⟩
  · rw [ensure_key_dict_eq, hnone] at h1
    simp only [Option.isSome_none, Bool.false_eq_true, if_false, Except.ok.injEq] at h1
    subst h1
    have he1 : dlookup (dset d0 "stroke" (.dict [])) "stroke" = some (.dict []) :=
      dlookup_dset_self _ _ _
    rw [ensure_subkey_dict_eq _ [] _ _ _ he1] at h2
    simp only [dlookup, Option.isSome_none, Bool.false_eq_true, if_false,
      Except.ok.injEq] at h2
    subst h2
    rw [dset_dset] at h3
    have he2 : dlookup (dset d0 "stroke" (.dict (dset [] "type" (.str "default"))))
        "stroke" = some (.dict (dset [] "type" (.str "default"))) :=
      dlookup_dset_self _ _ _
    rw [ensure_subkey_dict_eq _ _ _ _ _ he2] at h3
    have hwnone : dlookup (dset [] "type" (Value.str "default")) "width" = none := by
      simp [dset, dlookup]
    rw [hwnone] at h3
    simp only [Option.isSome_none, Bool.false_eq_true, if_false, Except.ok.injEq] at h3
    subst h3
    rw [dset_dset]
    refine ⟨_, _, rfl, dlookup_dset_self _ _ _, ?_⟩
    rw [dlookup_dset_ne _ _ _ _ (by decide)]
    exact dlookup_dset_self _ _ _
  · rw [ensure_key_dict_eq, hsd] at h1
    simp only [Option.isSome_some, if_true, Except.ok.injEq] at h1
    subst h1
    rcases hty with htynone | htydef
    · rw [ensure_subkey_dict_eq _ sd _ _ _ hsd, htynone] at h2
      simp only [Option.isSome_none, Bool.false_eq_true, if_false, Except.ok.injEq] at h2
      subst h2
      have he2 : dlookup (dset d0 "stroke" (.dict (dset sd "type" (.str "default"))))
          "stroke" = some (.dict (dset sd "type" (.str "default"))) :=
        dlookup_dset_self _ _ _
      rw [ensure_subkey_dict_eq _ _ _ _ _ he2] at h3
      by_cases hw : (dlookup (dset sd "type" (.str "default")) "width").isSome
      · rw [if_pos hw] at h3
        simp only [Except.ok.injEq] at h3
        subst h3
        exact ⟨_, _, rfl, he2, dlookup_dset_self _ _ _⟩
      · rw [if_neg hw] at h3
        simp only [Except.ok.injEq] at h3
        subst h3
        rw [dset_dset]
        refine ⟨_, _, rfl, dlookup_dset_self _ _ _, ?_⟩
        rw [dlookup_dset_ne _ _ _ _ (by decide)]
        exact dlookup_dset_self _ _ _
    · rw [ensure_subkey_dict_eq _ sd _ _ _ hsd, htydef] at h2
      simp only [Option.isSome_some, if_true, Except.ok.injEq] at h2
      subst h2
      rw [ensure_subkey_dict_eq _ sd _ _ _ hsd] at h3
      by_cases hw : (dlookup sd "width").isSome
      · rw [if_pos hw] at h3
        simp only [Except.ok.injEq] at h3
        subst h3
        exact ⟨_, _, rfl, hsd, htydef⟩
      · rw [if_neg hw] at h3
        simp only [Except.ok.injEq] at h3
        subst h3
        refine ⟨_, _, rfl, dlookup_dset_self _ _ _, ?_⟩
        rw [dlookup_dset_ne _ _ _ _ (by decide)]
        exact htydef

theorem fill_defaults_A_stroke_width (d0 : List (String × Value)) (w : Value)
    (h : fill_defaults_A (.dict d0) = .ok w)
    (hpre : dlookup d0 "stroke" = none ∨
      ∃ sd, dlookup d0 "stroke" = some (.dict sd) ∧
        (dlookup sd "width" = none ∨ dlookup sd "width" = some (.num 0))) :
    ∃ dA sdA, w = .dict dA ∧ dlookup dA "stroke" = some (.dict sdA) ∧
      dlookup sdA "width" = some (.num 0) := by
  obtain ⟨s1, s2, h1, h2, h3⟩ := fill_defaults_A_parts _ w h
  rcases hpre with hnone | ⟨sd, hsd, hwid⟩
  · rw [ensure_key_dict_eq, hnone] at h1
    simp only [Option.isSome_none, Bool.false_eq_true, if_false, Except.ok.injEq] at h1
    subst h1
    have he1 : dlookup (dset d0 "stroke" (.dict [])) "stroke" = some (.dict []) :=
      dlookup_dset_self _ _ _
    rw [ensure_subkey_dict_eq _ [] _ _ _ he1] at h2
    simp only [dlookup, Option.isSome_none, Bool.false_eq_true, if_false,
      Except.ok.injEq] at h2
    subst h2
    rw [dset_dset] at h3
    have he2 : dlookup (dset d0 "stroke" (.dict (dset [] "type" (.str "default"))))
        "stroke" = some (.dict (dset [] "type" (.str "default"))) :=
      dlookup_dset_self _ _ _
    rw [ensure_subkey_dict_eq _ _ _ _ _ he2] at h3
    have hwnone : dlookup (dset [] "type" (Value.str "default")) "width" = none := by
      simp [dset, dlookup]
    rw [hwnone] at h3
    simp only [Option.isSome_none, Bool.false_eq_true, if_false, Except.ok.injEq] at h3
    subst h3
    rw [dset_dset]
    exact ⟨_, _, rfl, dlookup_dset_self _ _ _, dlookup_dset_self _ _ _⟩
  · rw [ensure_key_dict_eq, hsd] at h1
    simp only [Option.isSome_some, if_true, Except.ok.injEq] at h1
    subst h1
    by_cases hty : (dlookup sd "type").isSome
    · rw [ensure_subkey_dict_eq _ sd _ _ _ hsd, if_pos hty] at h2
      simp only [Except.ok.injEq] at h2
      subst h2
      rw [ensure_subkey_dict_eq _ sd _ _ _ hsd] at h3
      rcases hwid with hwnone | hw0
      · rw [hwnone] at h3
        simp only [Option.isSome_none, Bool.false_eq_true, if_false, Except.ok.injEq] at h3
        subst h3
        exact ⟨_, _, rfl, dlookup_dset_self _ _ _, dlookup_dset_self _ _ _⟩
      · rw [hw0] at h3
        simp only [Option.isSome_some, if_true, Except.ok.injEq] at h3
        subst h3
        exact ⟨_, _, rfl, hsd, hw0⟩
    · rw [ensure_subkey_dict_eq _ sd _ _ _ hsd, if_neg hty] at h2
      simp only [Except.ok.injEq] at h2
      subst h2
      have he2 : dlookup (dset d0 "stroke" (.dict (dset sd "type" (.str "default"))))
          "stroke" = some (.dict (dset sd "type" (.str "default"))) :=
        dlookup_dset_self _ _ _
      rw [ensure_subkey_dict_eq _ _ _ _ _ he2] at h3
      have hwthrough : dlookup (dset sd "type" (.str "default")) "width" =
          dlookup sd "width" := dlookup_dset_ne _ _ _ _ (by decide)
      rw [hwthrough] at h3
      rcases hwid with hwnone | hw0
      · rw [hwnone] at h3
        simp only [Option.isSome_none, Bool.false_eq_true, if_false, Except.ok.injEq] at h3
        subst h3
        rw [dset_dset]
        exact ⟨_, _, rfl, dlookup_dset_self _ _ _, dlookup_dset_self _ _ _⟩
      · rw [hw0] at h3
        simp only [Option.isSome_some, if_true, Except.ok.injEq] at h3
        subst h3
        refine ⟨_, _, rfl, he2, ?_⟩
        rw [hwthrough]
        exact hw0

theorem fill_defaults_stroke_type_default (d0 : List (String × Value)) (w : Value)
    (h : fill_defaults (.dict d0) = .ok w)
    (hpre : dlookup d0 "stroke" = none ∨
      ∃ sd, dlookup d0 "stroke" = some (.dict sd) ∧
        (dlookup sd "type" = none ∨ dlookup sd "type" = some (.str "default"))) :
    ∃ dw sdw, w = .dict dw ∧ dlookup dw "stroke" = some (.dict sdw) ∧
      dlookup sdw "type" = some (.str "#000") := by
  obtain ⟨vA, vB, hA, hB, hC⟩ := fill_defaults_parts _ w h
  obtain ⟨dA, sdA, rfl, hsA, htyA⟩ := fill_defaults_A_stroke_type d0 vA hA hpre
  obtain ⟨dA', dB, heA, rfl, _, _, hpresB⟩ := fill_defaults_B_ok_facts _ _ hB
  obtain rfl : dA' = dA := (Value.dict.inj heA).symm
  have hsB : dlookup dB "stroke" = some (.dict sdA) := by
    rw [hpresB "stroke" (by decide) (by decide)]
    exact hsA
  obtain ⟨s7, h7, h8⟩ := fill_defaults_C_parts _ w hC
  rw [replace_if_eq_dict_eq dB sdA _ _ _ _ _ hsB htyA] at h7
  have hbdd : beqScalar (.str "default") (.str "default") = true := by rfl
  rw [hbdd] at h7
  simp only [if_true, Except.ok.injEq] at h7
  subst h7
  obtain ⟨d7x, sd7x, u0, d8, he7, hs7x, hu7x, rfl, hpres8, hbr8⟩ :=
    replace_if_eq_ok _ _ _ _ _ _ h8
  obtain rfl : d7x = dset dB "stroke" (.dict (dset sdA "type" (.str "#000"))) :=
    (Value.dict.inj he7).symm
  rw [dlookup_dset_self] at hs7x
  obtain rfl : sd7x = dset sdA "type" (.str "#000") :=
    (Value.dict.inj (Option.some.inj hs7x)).symm
  rcases hbr8 with ⟨hb8, rfl⟩ | ⟨hb8, rfl⟩
  · refine ⟨_, _, rfl, dlookup_dset_self _ _ _, ?_⟩
    rw [dlookup_dset_ne _ _ _ _ (by decide)]
    exact dlookup_dset_self _ _ _
  · exact ⟨_, _, rfl, dlookup_dset_self _ _ _, dlookup_dset_self _ _ _⟩

theorem fill_defaults_stroke_width_tenth (d0 : List (String × Value)) (w : Value)
    (h : fill_defaults (.dict d0) = .ok w)
    (hpre : dlookup d0 "stroke" = none ∨
      ∃ sd, dlookup d0 "stroke" = some (.dict sd) ∧
        (dlookup sd "width" = none ∨ dlookup sd "width" = some (.num 0))) :
    ∃ dw sdw, w = .dict dw ∧ dlookup dw "stroke" = some (.dict sdw) ∧
      dlookup sdw "width" = some (.num (mkRat 1 10)) := by
  obtain ⟨vA, vB, hA, hB, hC⟩ := fill_defaults_parts _ w h
  obtain ⟨dA, sdA, rfl, hsA, hwA⟩ := fill_defaults_A_stroke_width d0 vA hA hpre
  obtain ⟨dA', dB, heA, rfl, _, _, hpresB⟩ := fill_defaults_B_ok_facts _ _ hB
  obtain rfl : dA' = dA := (Value.dict.inj heA).symm
  have hsB : dlookup dB "stroke" = some (.dict sdA) := by
    rw [hpresB "stroke" (by decide) (by decide)]
    exact hsA
  obtain ⟨s7, h7, h8⟩ := fill_defaults_C_parts _ w hC
  obtain ⟨d7a, sd7a, t0, d7, he7a, hs7a, ht7a, rfl, hpres7, hbr7⟩ :=
    replace_if_eq_ok _ _ _ _ _ _ h7
  obtain rfl : d7a = dB := (Value.dict.inj he7a).symm
  obtain rfl : sd7a = sdA := by
    rw [hsB] at hs7a
    exact (Value.dict.inj (Option.some.inj hs7a)).symm
  have hstroke7 : ∃ sd7, dlookup d7 "stroke" = some (.dict sd7) ∧
      dlookup sd7 "width" = some (.num 0) := by
    rcases hbr7 with ⟨hb7, rfl⟩ | ⟨hb7, rfl⟩
    · refine ⟨dset sd7a "type" (.str "#000"), dlookup_dset_self _ _ _, ?_⟩
      rw [dlookup_dset_ne _ _ _ _ (by decide)]
      exact hwA
    · exact ⟨sd7a, hsB, hwA⟩
  obtain ⟨sd7, hs7, hw7⟩ := hstroke7
  rw [replace_if_eq_dict_eq d7 sd7 _ _ _ _ _ hs7 hw7] at h8
  have hb00 : beqScalar (.num 0) (.num 0) = true := by rfl
  rw [hb00] at h8
  simp only [if_true, Except.ok.injEq] at h8
  subst h8
  exact ⟨_, _, rfl, dlookup_dset_self _ _ _, dlookup_dset_self _ _ _⟩

/-- C6: the default-filling step of `draw_cmd_to_svg` (lines 117-137) is
idempotent (a second pass is a no-op, also on inputs where the pass raises),
and on a successful pass it yields stroke color `"#000"` when the stroke type
was absent or `"default"`, stroke width `0.1` when the declared width was `0`
or absent, fill type `"none"` when absent, and justification `"right"` when
absent. -/
theorem fill_defaults_idempotent_and_defaults :
    (∀ v, (fill_defaults v).bind fill_defaults = fill_defaults v) ∧
    (∀ d0 w, fill_defaults (.dict d0) = .ok w →
      ((dlookup d0 "stroke" = none ∨
        ∃ sd, dlookup d0 "stroke" = some (.dict sd) ∧
          (dlookup sd "type" = none ∨ dlookup sd "type" = some (.str "default"))) →
        ∃ dw sdw, w = .dict dw ∧ dlookup dw "stroke" = some (.dict sdw) ∧
          dlookup sdw "type" = some (.str "#000")) ∧
      ((dlookup d0 "stroke" = none ∨
        ∃ sd, dlookup d0 "stroke" = some (.dict sd) ∧
          (dlookup sd "width" = none ∨ dlookup sd "width" = some (.num 0))) →
        ∃ dw sdw, w = .dict dw ∧ dlookup dw "stroke" = some (.dict sdw) ∧
          dlookup sdw "width" = some (.num (mkRat 1 10))) ∧
      (dlookup d0 "fill" = none →
        ∃ dw, w = .dict dw ∧
          dlookup dw "fill" = some (.dict [("type", .str "none")])) ∧
      (dlookup d0 "justify" = none →
        ∃ dw, w = .dict dw ∧ dlookup dw "justify" = some (.str "right"))) := by
  refine ⟨fill_defaults_idem, ?_⟩
  intro d0 w h
  refine ⟨fun hpre => fill_defaults_stroke_type_default d0 w h hpre,
    fun hpre => fill_defaults_stroke_width_tenth d0 w h hpre, ?_, ?_⟩
  · intro hnone
    obtain ⟨dw, rfl, hfill, _⟩ := fill_defaults_fill_justify_defaults d0 w h
    exact ⟨dw, rfl, hfill hnone⟩
  · intro hnone
    obtain ⟨dw, rfl, _, hjust⟩ := fill_defaults_fill_justify_defaults d0 w h
    exact ⟨dw, rfl, hjust hnone⟩

/-- Witness for C6 at the empty shape record: all four defaults are filled
in, and a second pass is a no-op. -/
theorem fill_defaults_idempotent_and_defaults_witness :
    ((fill_defaults (.dict [])).bind fill_defaults = fill_defaults (.dict [])) ∧
    (∃ dw sdw,
      (.dict [("stroke", .dict [("type", Value.str "#000"),
          ("width", Value.num (mkRat 1 10))]),
        ("fill", .dict [("type", Value.str "none")]),
        ("justify", Value.str "right")] : Value) = .dict dw ∧
      dlookup dw "stroke" = some (.dict sdw) ∧
      dlookup sdw "type" = some (.str "#000")) := by
  constructor
  · exact fill_defaults_idempotent_and_defaults.1 (.dict [])
  · exact ((fill_defaults_idempotent_and_defaults.2 []
      (.dict [("stroke", .dict [("type", Value.str "#000"),
          ("width", Value.num (mkRat 1 10))]),
        ("fill", .dict [("type", Value.str "none")]),
        ("justify", Value.str "right")]) rfl).1 (Or.inl rfl))

/-- Python `v[i]` for a nonnegative integer index: list indexing
(`IndexError` when out of range), string indexing (a one-character string);
an integer key on a dict raises `KeyError`, on a number `TypeError`. -/
def pyIndex : Value → ℕ → Except PyErr Value
  | .list xs, i =>
    (match xs.get? i with
     | some v => .ok v
     | none => .error .indexError)
  | .str s, i =>
    (match s.toList.get? i with
     | some c => .ok (.str (String.mk [c]))
     | none => .error .indexError)
  | .dict _, _ => .error (.keyError "0")
  | .num _, _ => .error .typeError

/-- Lowercasing of a string, character by character (the property names the
module compares against are ASCII, where this agrees with Python's
`str.lower()`). -/
def strLower (s : String) : String := String.mk (s.data.map Char.toLower)

/-- Python `v.lower()`: defined on strings only. -/
def pyLower : Value → Except PyErr Value
  | .str s => .ok (.str (strLower s))
  | _ => .error .attributeError

/-- Python unary minus, as used in `y = -shape["at"][1]` (line 231). -/
def pyNeg : Value → Except PyErr Value
  | .num q => .ok (.num (-q))
  | _ => .error .typeError

/-- Python `len(v)` (line 246). -/
def pyLen : Value → Except PyErr ℕ
  | .str s => .ok s.length
  | .list xs => .ok xs.length
  | .dict d => .ok d.length
  | .num _ => .error .typeError

/-- A value usable in the float arithmetic of lines 242-253; anything but a
number raises `TypeError` there. -/
def pyNumOk : Value → Except PyErr ℚ
  | .num q => .ok q
  | _ => .error .typeError

/-- Rendering of a numeric value into an `str.format` template.  Python's
float `repr` is abstracted by an exact rational rendering; no claim depends
on the digits produced. -/
def qstr (q : ℚ) : String :=
  if q.den = 1 then toString q.num else toString q.num ++ "/" ++ toString q.den

/-- Rendering of a value into an `str.format` template (`str(v)`); the
Python `repr` of lists and dicts is abstracted, no claim depends on it. -/
def valueText : Value → String
  | .str s => s
  | .num q => qstr q
  | .list _ => "<list>"
  | .dict _ => "<dict>"

/-- Lines 222-229 of `draw_cmd_to_svg`: dispatch on the property name
(`shape["misc"][0].lower()`).  `"reference"` and `"value"` choose a CSS class
and an `s:attribute` tag; any other name consults the hide flag in
`shape["effects"]["misc"]` and, when the flag is absent, reaches the `raise`
on line 229 -- whose message template `"Unknown property {symbol[1]} is not
hidden."` is formatted with `**locals()`, and `symbol` (a name from
`draw_cmd_to_dict`, not a local of `draw_cmd_to_svg`) is missing there, so
`str.format` raises `KeyError("symbol")` before any `RuntimeError` exists.
An unknown property that does carry the flag leaves `class_` unassigned,
modelled as `none`. -/
def property_class_extra (shape : Value) : Except PyErr (Option (String × String)) :=
  match pyGet shape "misc" with
  | .error e => .error e
  | .ok m =>
  match pyIndex m 0 with
  | .error e => .error e
  | .ok m0 =>
  match pyLower m0 with
  | .error e => .error e
  | .ok nm =>
  if beqScalar nm (.str "reference") then
    .ok (some ("part_ref_text", "s:attribute=\"ref\""))
  else if beqScalar nm (.str "value") then
    .ok (some ("part_name_text", "s:attribute=\"value\""))
  else
    match pyGet shape "effects" with
    | .error e => .error e
    | .ok eff =>
    match pyGet eff "misc" with
    | .error e => .error e
    | .ok em =>
    match pyContains em "hide" with
    | .error e => .error e
    | .ok b =>
      if !b then .error (.keyError "symbol")
      else .ok none

/-- Lines 221-278 of `draw_cmd_to_svg`: render a property shape into its
`<text>` element (the `" ".join` template of lines 265-278, written as one
concatenation).  The text bounding box computed on lines 242-263 contributes
nothing to the string; it is represented only by the type constraints its
arithmetic imposes (`len(shape_text)`, `font_size*0.6`,
`math.radians(rotation)`, `x+dx*text_width`). -/
def property_to_svg (shape : Value) : Except PyErr String :=
  match property_class_extra shape with
  | .error e => .error e
  | .ok ce =>
  match pyGet shape "at" with
  | .error e => .error e
  | .ok at2 =>
  match pyIndex at2 0 with
  | .error e => .error e
  | .ok x =>
  match pyIndex at2 1 with
  | .error e => .error e
  | .ok y1 =>
  match pyNeg y1 with
  | .error e => .error e
  | .ok y =>
  match pyIndex at2 2 with
  | .error e => .error e
  | .ok rotation =>
  match pyGet shape "effects" with
  | .error e => .error e
  | .ok eff =>
  match pyGet eff "font" with
  | .error e => .error e
  | .ok font =>
  match pyGet font "size" with
  | .error e => .error e
  | .ok size =>
  match pyIndex size 0 with
  | .error e => .error e
  | .ok font_size =>
  match pyGet shape "justify" with
  | .error e => .error e
  | .ok justify =>
  match pyGet shape "stroke" with
  | .error e => .error e
  | .ok strokeD =>
  match pyGet strokeD "type" with
  | .error e => .error e
  | .ok _stroke =>
  match pyGet strokeD "width" with
  | .error e => .error e
  | .ok _stroke_width =>
  match pyGet shape "fill" with
  | .error e => .error e
  | .ok fillD =>
  match pyGet fillD "type" with
  | .error e => .error e
  | .ok _fill =>
  match ce with
  | none => .error .unboundLocalError
  | some (class_, extra) =>
  match pyGet shape "misc" with
  | .error e => .error e
  | .ok m =>
  match pyIndex m 1 with
  | .error e => .error e
  | .ok shape_text =>
  match pyLen shape_text with
  | .error e => .error e
  | .ok _text_len =>
  match pyNumOk font_size with
  | .error e => .error e
  | .ok _ =>
  match pyNumOk rotation with
  | .error e => .error e
  | .ok _ =>
  match pyNumOk x with
  | .error e => .error e
  | .ok _ =>
    .ok ("<text class=\x27" ++ class_ ++ "\x27 text-anchor=\x27" ++ valueText justify ++
      "\x27 x=\x27" ++ valueText x ++ "\x27 y=\x27" ++ valueText y ++
      "\x27 transform=\x27rotate(" ++ valueText rotation ++ " " ++ valueText x ++ " " ++
      valueText y ++ ") translate(0 0)\x27 style=\x27font-size:" ++
      valueText font_size ++ "px\x27 " ++ extra ++ " > " ++ valueText shape_text ++
      " </text>")

/-- Lines 117-137 and the property dispatch of `draw_cmd_to_svg` applied to
an already-normalized `(shape_type, shape)` pair: fill the defaults, then
render the property.  Other shape kinds are outside this model. -/
def draw_cmd_to_svg_property_typed (shape_type : String) (shape0 : Value) :
    Except PyErr String :=
  match fill_defaults shape0 with
  | .error e => .error e
  | .ok shape =>
    if shape_type = "property" then property_to_svg shape
    else .error (.runtimeError "shape kind not modelled here")

/-- The property branch of `draw_cmd_to_svg` (lines 113, 117-137, 221-278)
for a drawing command resolving to the "property" shape kind: normalize the
command, fill the defaults, and render the `<text>` element. -/
def draw_cmd_to_svg_property (cmd : Value) : Except PyErr String :=
  match draw_cmd_to_dict cmd with
  | .error e => .error e
  | .ok st => draw_cmd_to_svg_property_typed st.1 st.2

theorem sub_in_left {xs l r : List Char} (h : List.IsInfix xs l) :
    List.IsInfix xs (l ++ r) :=
  h.trans (List.prefix_append l r).isInfix

theorem sub_in_right {xs l r : List Char} (h : List.IsInfix xs r) :
    List.IsInfix xs (l ++ r) :=
  h.trans (List.suffix_append l r).isInfix

theorem str_infix_appl (a b sub : String) (h : List.IsInfix sub.data a.data) :
    List.IsInfix sub.data (a ++ b).data := by
  rw [String.data_append]
  exact sub_in_left h

theorem str_infix_appr (a b sub : String) (h : List.IsInfix sub.data b.data) :
    List.IsInfix sub.data (a ++ b).data := by
  rw [String.data_append]
  exact sub_in_right h

/-- An unknown property with an explicit non-hide token in its effects:
`(property "foo" "X" (at 0 0 0) (effects (font (size 1 1)) bold))`. -/
def unknown_prop_cmd : Value := .list [.str "property", .str "foo", .str "X",
  .list [.str "at", .num 0, .num 0, .num 0],
  .list [.str "effects", .list [.str "font", .list [.str "size", .num 1, .num 1]],
    .str "bold"]]

/-- A well-formed property command
`(property nm txt (at x y r) (effects (font (size s1 s2))))`. -/
def value_prop_cmd (nm txt : String) (x y r s1 s2 : ℚ) : Value :=
  .list [.str "property", .str nm, .str txt,
    .list [.str "at", .num x, .num y, .num r],
    .list [.str "effects", .list [.str "font", .list [.str "size", .num s1, .num s2]]]]

/-- Rewriting `draw_cmd_to_svg_property` once the normalization result is
known (kept separate so no evaluation of the recursive normalizer happens
during unification). -/
theorem draw_cmd_to_svg_property_eq (cmd : Value) (st : String × Value)
    (hd : draw_cmd_to_dict cmd = .ok st) :
    draw_cmd_to_svg_property cmd = draw_cmd_to_svg_property_typed st.1 st.2 := by
  unfold draw_cmd_to_svg_property
  rw [hd]

theorem unknown_prop_cmd_dict : draw_cmd_to_dict unknown_prop_cmd = .ok ("property",
    .dict [("misc", .list [.str "foo", .str "X"]),
      ("at", .list [.num 0, .num 0, .num 0]),
      ("effects", .dict [("font", .dict [("size", .list [.num 1, .num 1])]),
        ("misc", .str "bold")])]) := by
  simp [unknown_prop_cmd, draw_cmd_to_dict, convertItems, dsetAppend, dset,
    dlookup, delistD]

theorem value_prop_cmd_dict (nm txt : String) (x y r s1 s2 : ℚ) :
    draw_cmd_to_dict (value_prop_cmd nm txt x y r s1 s2) = .ok ("property",
      .dict [("misc", .list [.str nm, .str txt]),
        ("at", .list [.num x, .num y, .num r]),
        ("effects", .dict [("font", .dict [("size", .list [.num s1, .num s2])])])]) := by
  simp [value_prop_cmd, draw_cmd_to_dict, convertItems, dsetAppend, dset, dlookup,
    delistD]

/-- C2 (code bug): a property whose lowercased name is neither "reference"
nor "value" and whose effects carry no hide flag crashes with
`KeyError("symbol")` raised while `str.format(**locals())` builds the
message of line 229 (`symbol` is a parameter of `draw_cmd_to_dict`, not a
local of `draw_cmd_to_svg`), so no `RuntimeError` identifying the property
is ever produced; a property named "value" with no hide flag renders
successfully with the `part_name_text` class tag and the machine-readable
`s:attribute="value"` attribute. -/
theorem property_unknown_keyerror_and_value_renders :
    draw_cmd_to_svg_property unknown_prop_cmd = .error (.keyError "symbol") ∧
    (∀ msg, draw_cmd_to_svg_property unknown_prop_cmd ≠ .error (.runtimeError msg)) ∧
    (∀ (nm txt : String) (x y r s1 s2 : ℚ), strLower nm = "value" →
      ∃ svg, draw_cmd_to_svg_property (value_prop_cmd nm txt x y r s1 s2) = .ok svg ∧
        List.IsInfix ("class=\x27part_name_text\x27".data) svg.data ∧
        List.IsInfix ("s:attribute=\"value\"".data) svg.data) := by
  have h1 : draw_cmd_to_svg_property unknown_prop_cmd = .error (.keyError "symbol") :=
    (draw_cmd_to_svg_property_eq _ _ unknown_prop_cmd_dict).trans (by rfl)
  refine ⟨h1, ?_, ?_⟩
  · intro msg
    rw [h1]
    simp
  · intro nm txt x y r s1 s2 hnm
    have hstep := draw_cmd_to_svg_property_eq _ _ (value_prop_cmd_dict nm txt x y r s1 s2)
    have hce : property_class_extra (.dict [("misc", .list [.str nm, .str txt]),
        ("at", .list [.num x, .num y, .num r]),
        ("effects", .dict [("font", .dict [("size", .list [.num s1, .num s2])])]),
        ("stroke", .dict [("type", .str "#000"), ("width", .num (mkRat 1 10))]),
        ("fill", .dict [("type", .str "none")]),
        ("justify", .str "right")]) =
        .ok (some ("part_name_text", "s:attribute=\"value\"")) := by
      simp [property_class_extra, pyGet, pyIndex, pyLower, dlookup, beqScalar, hnm]
    have h3 : draw_cmd_to_svg_property_typed "property"
        (.dict [("misc", .list [.str nm, .str txt]),
          ("at", .list [.num x, .num y, .num r]),
          ("effects", .dict [("font", .dict [("size", .list [.num s1, .num s2])])])]) =
        property_to_svg (.dict [("misc", .list [.str nm, .str txt]),
          ("at", .list [.num x, .num y, .num r]),
          ("effects", .dict [("font", .dict [("size", .list [.num s1, .num s2])])]),
          ("stroke", .dict [("type", .str "#000"), ("width", .num (mkRat 1 10))]),
          ("fill", .dict [("type", .str "none")]),
          ("justify", .str "right")]) := by rfl
    have h4 : property_to_svg (.dict [("misc", .list [.str nm, .str txt]),
        ("at", .list [.num x, .num y, .num r]),
        ("effects", .dict [("font", .dict [("size", .list [.num s1, .num s2])])]),
        ("stroke", .dict [("type", .str "#000"), ("width", .num (mkRat 1 10))]),
        ("fill", .dict [("type", .str "none")]),
        ("justify", .str "right")]) =
        .ok ("<text class=\x27" ++ "part_name_text" ++ "\x27 text-anchor=\x27" ++ "right" ++
          "\x27 x=\x27" ++ qstr x ++ "\x27 y=\x27" ++ qstr (-y) ++
          "\x27 transform=\x27rotate(" ++
          qstr r ++ " " ++ qstr x ++ " " ++ qstr (-y) ++
          ") translate(0 0)\x27 style=\x27font-size:" ++
          qstr s1 ++ "px\x27 " ++ "s:attribute=\"value\"" ++ " > " ++ txt ++
          " </text>") := by
      unfold property_to_svg
      rw [hce]
      rfl
    refine ⟨_, (hstep.trans (h3.trans h4)), ?_, ?_⟩
    · iterate 18 apply str_infix_appl
      decide
    · iterate 3 apply str_infix_appl
      apply str_infix_appr
      exact List.infix_rfl

/-- Witness for C2 at the concrete command
`(property "Value" "10k" (at 1 2 0) (effects (font (size 1 1))))`. -/
theorem property_unknown_keyerror_and_value_renders_witness :
    strLower "Value" = "value" ∧
    ∃ svg, draw_cmd_to_svg_property (value_prop_cmd "Value" "10k" 1 2 0 1 1) = .ok svg ∧
      List.IsInfix ("class=\x27part_name_text\x27".data) svg.data ∧
      List.IsInfix ("s:attribute=\"value\"".data) svg.data :=
  ⟨by rfl, property_unknown_keyerror_and_value_renders.2.2 "Value" "10k" 1 2 0 1 1 (by rfl)⟩

/-- `get_pin_info` (lines 69-82), over the reals: quadrant from
`(rotation+45)//90` (line 70), side from the dict lookup of lines 71-76
(the lookup raises `KeyError` for quadrants outside 0..3, modelled as
`none`), direction `(cos θ, -sin θ)` with `θ = math.radians(rotation)`
(lines 78-79), endpoint = anchor + direction·length (lines 80-81); returns
`([endx, endy], [x, y], side)` (line 82; the dead code after the early
return is not modelled). -/
noncomputable def get_pin_info (x y rotation length : ℝ) :
    Option ((ℝ × ℝ) × (ℝ × ℝ) × String) :=
  let quadrant : ℤ := ⌊(rotation + 45) / 90⌋
  let side : Option String :=
    if quadrant = 0 then some "right"
    else if quadrant = 1 then some "top"
    else if quadrant = 2 then some "left"
    else if quadrant = 3 then some "bottom"
    else none
  match side with
  | none => none
  | some s =>
    let dx := Real.cos (rotation * (Real.pi / 180))
    let dy := -Real.sin (rotation * (Real.pi / 180))
    some ((x + dx * length, y + dy * length), (x, y), s)

/-- The compass side as C4 words it: `quadrant = floor((θ+45)/90) mod 4`,
quadrant 0 to "right", 1 to "top", 2 to "left", 3 to "bottom".  (Stated
from the claim's words, to be compared against the source's lookup.) -/
def spec_quadrant_side (q : ℤ) : String :=
  if q % 4 = 0 then "right"
  else if q % 4 = 1 then "top"
  else if q % 4 = 2 then "left"
  else "bottom"

theorem floor_45_90 : (⌊((0:ℝ) + 45) / 90⌋ : ℤ) = 0 := by
  rw [Int.floor_eq_iff]
  norm_num

theorem floor_135_90 : (⌊((90:ℝ) + 45) / 90⌋ : ℤ) = 1 := by
  rw [Int.floor_eq_iff]
  norm_num

theorem floor_225_90 : (⌊((180:ℝ) + 45) / 90⌋ : ℤ) = 2 := by
  rw [Int.floor_eq_iff]
  norm_num

theorem floor_315_90 : (⌊((270:ℝ) + 45) / 90⌋ : ℤ) = 3 := by
  rw [Int.floor_eq_iff]
  norm_num

/-- C4: for quadrant-aligned rotations the pin endpoint is
`anchor + (cos θ, -sin θ)·length` and the side is the claim's quadrant map
of `floor((rotation+45)/90) mod 4`; in particular a pin at the origin with
rotation 0 ends at `(L, 0)` on side "right" and with rotation 90 at
`(0, -L)` on side "top". -/
theorem get_pin_info_quadrant_sides (x y L rotation : ℝ)
    (h : rotation = 0 ∨ rotation = 90 ∨ rotation = 180 ∨ rotation = 270) :
    get_pin_info x y rotation L =
      some ((x + Real.cos (rotation * (Real.pi / 180)) * L,
             y - Real.sin (rotation * (Real.pi / 180)) * L), (x, y),
            spec_quadrant_side ⌊(rotation + 45) / 90⌋) ∧
    get_pin_info 0 0 0 L = some ((L, 0), (0, 0), "right") ∧
    get_pin_info 0 0 90 L = some ((0, -L), (0, 0), "top") := by
  have hz : ((0:ℝ) * (Real.pi / 180)) = 0 := by ring
  have hn : ((90:ℝ) * (Real.pi / 180)) = Real.pi / 2 := by ring
  refine ⟨?_, ?_, ?_⟩
  · rcases h with rfl | rfl | rfl | rfl
    · rw [show get_pin_info x y 0 L = some ((x + Real.cos (0 * (Real.pi / 180)) * L,
          y + -Real.sin (0 * (Real.pi / 180)) * L), (x, y), "right") from by
        unfold get_pin_info
        rw [floor_45_90]
        norm_num]
      rw [floor_45_90]
      simp [spec_quadrant_side, neg_mul, sub_eq_add_neg]
    · rw [show get_pin_info x y 90 L = some ((x + Real.cos (90 * (Real.pi / 180)) * L,
          y + -Real.sin (90 * (Real.pi / 180)) * L), (x, y), "top") from by
        unfold get_pin_info
        rw [floor_135_90]
        norm_num]
      rw [floor_135_90]
      simp [spec_quadrant_side, neg_mul, sub_eq_add_neg]
    · rw [show get_pin_info x y 180 L = some ((x + Real.cos (180 * (Real.pi / 180)) * L,
          y + -Real.sin (180 * (Real.pi / 180)) * L), (x, y), "left") from by
        unfold get_pin_info
        rw [floor_225_90]
        norm_num]
      rw [floor_225_90]
      simp [spec_quadrant_side, neg_mul, sub_eq_add_neg]
    · rw [show get_pin_info x y 270 L = some ((x + Real.cos (270 * (Real.pi / 180)) * L,
          y + -Real.sin (270 * (Real.pi / 180)) * L), (x, y), "bottom") from by
        unfold get_pin_info
        rw [floor_315_90]
        norm_num]
      rw [floor_315_90]
      simp [spec_quadrant_side, neg_mul, sub_eq_add_neg]
  · rw [show get_pin_info 0 0 0 L = some ((0 + Real.cos (0 * (Real.pi / 180)) * L,
        0 + -Real.sin (0 * (Real.pi / 180)) * L), (0, 0), "right") from by
      unfold get_pin_info
      rw [floor_45_90]
      norm_num]
    rw [hz]
    simp
  · rw [show get_pin_info 0 0 90 L = some ((0 + Real.cos (90 * (Real.pi / 180)) * L,
        0 + -Real.sin (90 * (Real.pi / 180)) * L), (0, 0), "top") from by
      unfold get_pin_info
      rw [floor_135_90]
      norm_num]
    rw [hn]
    simp

/-- Witness for C4 at the origin with rotation 0 and length 1. -/
theorem get_pin_info_quadrant_sides_witness :
    get_pin_info 0 0 0 1 = some ((1, 0), (0, 0), "right") :=
  (get_pin_info_quadrant_sides 0 0 1 0 (Or.inl rfl)).2.1

/-- `Point.magnitude` of the geometry library applied to the difference of
two transformed points (lines 198-200). -/
noncomputable def magnitude (p : ℝ × ℝ) : ℝ := Real.sqrt (p.1 ^ 2 + p.2 ^ 2)

/-- Point difference (`b - c` on `Point` objects). -/
def psub (p q : ℝ × ℝ) : ℝ × ℝ := (p.1 - q.1, p.2 - q.2)

/-- Line 202: the included angle at the arc mid-point, by the law of
cosines; `math.acos` becomes `Real.arccos` (on the non-degenerate triangles
the code receives, the argument lies in [-1, 1], where they agree). -/
noncomputable def arc_angle (a b c : ℝ × ℝ) : ℝ :=
  let A := magnitude (psub b c)
  let B := magnitude (psub a c)
  let C := magnitude (psub a b)
  Real.arccos ((A * A + B * B - C * C) / (2 * A * B))

/-- Line 206: `large_arc = int(math.pi/2 > angle)`. -/
noncomputable def arc_large_arc (a b c : ℝ × ℝ) : ℤ :=
  if Real.pi / 2 > arc_angle a b c then 1 else 0

/-- The cross product `(b.x-a.x)*(c.y-a.y) - (b.y-a.y)*(c.x-a.x)` of
line 207. -/
def arc_cross (a b c : ℝ × ℝ) : ℝ :=
  (b.1 - a.1) * (c.2 - a.2) - (b.2 - a.2) * (c.1 - a.1)

/-- Line 207: `sweep = int(cross < 0)`. -/
noncomputable def arc_sweep (a b c : ℝ × ℝ) : ℤ :=
  if arc_cross a b c < 0 then 1 else 0

/-- C5: the SVG large-arc flag is 1 exactly when the included angle at the
arc mid-point (law of cosines, line 202) is below 90 degrees (`math.pi/2`
radians), and the sweep flag is 1 exactly when the cross product
`(b-a)x(c-a)` is negative. -/
theorem arc_flags_characterization (a b c : ℝ × ℝ) :
    (arc_large_arc a b c = 1 ↔ arc_angle a b c < Real.pi / 2) ∧
    (arc_sweep a b c = 1 ↔ arc_cross a b c < 0) := by
  constructor
  · unfold arc_large_arc
    by_cases h : Real.pi / 2 > arc_angle a b c
    · simp [h]
    · simp [h]
  · unfold arc_sweep
    by_cases h : arc_cross a b c < 0
    · simp [h]
    · simp [h]

/-- A net reference in `pin.nets`: Python `None` or a named net object. -/
inductive NetRef where
  | empty : NetRef
  | net : String → NetRef
deriving DecidableEq

/-- Lines 408-416: the net-stub length loop.  Each iteration of the inner
loop evaluates the expression `[NC, None]` (line 413); the name `NC` is
neither defined in nor imported into the module (lines 24-25 import only
`Tx`, `Point`, `BBox` and `export_to_all`), so the first net of the first
pin with a non-empty `nets` collection raises `NameError` on the name
`NC`; with no nets anywhere the loop body never runs and `max_stub_len`
stays 0. -/
def max_stub_len_calc : List (List NetRef) → Except PyErr ℕ
  | [] => .ok 0
  | [] :: restPins => max_stub_len_calc restPins
  | (_ :: _) :: _ => .error (.nameError "NC")

/-- An axis-aligned bounding box with exact coordinates: the `tx_bbox` of
one unit as read on lines 525-528 (min corner, width, height). -/
structure BBoxQ where
  minx : ℚ
  miny : ℚ
  w : ℚ
  h : ℚ
deriving DecidableEq

/-- Line 518: the diagnostic bounding-box switch, hardcoded to `True`. -/
def show_bbox : Bool := true

/-- Lines 520-534: the diagnostic bounding-box rectangle for one unit (the
`" ".join` of the six template pieces, with `bbox_stroke_width = scale*0.1`
from line 519). -/
def bbox_rect_svg (tx_bbox : BBoxQ) (scale : ℚ) : String :=
  "<rect " ++
  ("x=\"" ++ qstr tx_bbox.minx ++ "\" y=\"" ++ qstr tx_bbox.miny ++ "\"") ++ " " ++
  ("width=\"" ++ qstr tx_bbox.w ++ "\" height=\"" ++ qstr tx_bbox.h ++ "\"") ++ " " ++
  ("style=\"stroke-width:" ++ qstr (scale * mkRat 1 10) ++ "; stroke:#f00\"") ++ " " ++
  "class=\"$cell_id symbol\" />"

/-- Python `sub in item` for strings: substring test (lines 506, 511). -/
def strContains (s sub : String) : Bool := decide (List.IsInfix sub.data s.data)

/-- The data of one part unit as it reaches the emission loop of
`gen_svg_comp`: the unit number, the transformed bounding box `tx_bbox` of
its rendered drawing commands (line 427), the SVG fragments produced by
`draw_cmd_to_svg` for its commands (lines 423-426), and the pin marker
fragments of lines 538-601.  The renderer and the pin-marker geometry are
modelled separately; the emission skeleton below only arranges these
fragments. -/
structure UnitModel where
  num : ℕ
  tx_bbox : BBoxQ
  unit_svg : List String
  pin_svgs : List String

/-- Lines 428-604: the SVG fragments appended for one part unit, in order:
the named outer group (translated so the bbox min lands at the origin), the
alias, the `s:pid` wrapper, the orientation group (scale and quadrant
rotation, lines 462-493), the mirror group (line 495-503), the non-text
fragments, the text fragments, the three closing tags, the diagnostic
bounding-box rectangle (guarded by `show_bbox`), the pin markers, and the
outer closing tag. -/
def unit_fragments (part_name part_ref symtx : String) (max_stub_len : ℕ) (scale : ℚ)
    (u : UnitModel) : List String :=
  let symbol_name :=
    if max_stub_len ≠ 0 then
      part_name ++ "_" ++ part_ref ++ "_" ++ toString u.num ++ "_" ++ symtx
    else part_name ++ "_" ++ toString u.num ++ "_" ++ symtx
  let sxy : ℚ × ℚ :=
    if strHas symtx 'H' then (-1, 1)
    else if strHas symtx 'V' then (1, -1)
    else (1, 1)
  let rotation : ℚ :=
    if strHas symtx 'R' then 90
    else if strHas symtx 'L' then 270
    else 0
  ["<g s:type=\"" ++ symbol_name ++ "\" s:width=\"" ++ qstr u.tx_bbox.w ++
     "\" s:height=\"" ++ qstr u.tx_bbox.h ++ "\" transform=\"translate(" ++
     qstr (-u.tx_bbox.minx) ++ " " ++ qstr (-u.tx_bbox.miny) ++ ")\" >",
   "<s:alias val=\"" ++ symbol_name ++ "\"/>",
   "<g s:pid=\"\">",
   "<g transform=\"scale(" ++ qstr scale ++ " " ++ qstr scale ++ ") rotate(" ++
     qstr rotation ++ " 0 0)\" >",
   "<g transform=\"scale(" ++ qstr sxy.1 ++ ", " ++ qstr sxy.2 ++ ")\" >"] ++
  (u.unit_svg.filter (fun item => !(strContains item "text"))) ++ ["</g>"] ++
  (u.unit_svg.filter (fun item => strContains item "text")) ++ ["</g>"] ++
  ["</g>"] ++
  (if show_bbox then [bbox_rect_svg u.tx_bbox scale] else []) ++
  u.pin_svgs ++
  ["</g>\n"]

/-- `gen_svg_comp` (lines 390-606): the fixed scale 10 (line 404), the
net-stub loop (lines 408-416, which raises before any SVG is assembled
whenever some pin has a net), then the per-unit fragment emission and the
final `"\n".join` (line 606). -/
def gen_svg_comp (part_name part_ref : String) (pin_nets : List (List NetRef))
    (units : List UnitModel) (symtx : String) : Except PyErr String :=
  let scale : ℚ := 10
  match max_stub_len_calc pin_nets with
  | .error e => .error e
  | .ok max_stub_len =>
    .ok (String.intercalate "\n"
      (units.flatMap (unit_fragments part_name part_ref symtx max_stub_len scale)))

theorem max_stub_len_calc_nameError (pins : List (List NetRef))
    (h : ∃ nets ∈ pins, nets ≠ []) :
    max_stub_len_calc pins = .error (.nameError "NC") := by
  induction pins with
  | nil => simp at h
  | cons p rest ih =>
    cases p with
    | nil =>
      obtain ⟨nets, hmem, hne⟩ := h
      simp only [List.mem_cons] at hmem
      rcases hmem with rfl | hmem
      · simp at hne
      · simp only [max_stub_len_calc]
        exact ih ⟨nets, hmem, hne⟩
    | cons n restn => rfl

theorem max_stub_len_calc_empty (pins : List (List NetRef))
    (h : ∀ l ∈ pins, l = []) : max_stub_len_calc pins = .ok 0 := by
  induction pins with
  | nil => rfl
  | cons p rest ih =>
    have hp : p = [] := h p (by simp)
    subst hp
    simp only [max_stub_len_calc]
    exact ih (fun l hl => h l (by simp [hl]))

/-- C8: whenever some pin of the part has a non-empty `nets` collection,
`gen_svg_comp` raises `NameError` on the undefined name `NC` (line 413)
and returns before any SVG is emitted. -/
theorem gen_svg_comp_nameError_NC (part_name part_ref : String)
    (pin_nets : List (List NetRef)) (units : List UnitModel) (symtx : String)
    (h : ∃ nets ∈ pin_nets, nets ≠ []) :
    gen_svg_comp part_name part_ref pin_nets units symtx =
      .error (.nameError "NC") := by
  unfold gen_svg_comp
  rw [max_stub_len_calc_nameError pin_nets h]

/-- Witness for C8: a part with one pin on one net. -/
theorem gen_svg_comp_nameError_NC_witness :
    gen_svg_comp "R" "R1" [[NetRef.net "n1"]] [] "" = .error (.nameError "NC") :=
  gen_svg_comp_nameError_NC "R" "R1" [[NetRef.net "n1"]] [] ""
    ⟨[NetRef.net "n1"], by simp, by simp⟩

/-- C10: `show_bbox` is hardcoded to `True`, so the fragment list emitted
for every unit contains the diagnostic rectangle; that rectangle carries
the red stroke `stroke:#f00` and the transformed unit bounding box (its
min corner, width and height); and on the success path (no nets on any
pin) `gen_svg_comp` emits exactly these per-unit fragment lists. -/
theorem gen_svg_comp_unit_bbox_rect :
    show_bbox = true ∧
    (∀ part_name part_ref symtx stub scale u,
      bbox_rect_svg u.tx_bbox scale ∈
        unit_fragments part_name part_ref symtx stub scale u) ∧
    (∀ b scale, List.IsInfix ("stroke:#f00".data) (bbox_rect_svg b scale).data ∧
      List.IsInfix (("x=\"" ++ qstr b.minx ++ "\" y=\"" ++ qstr b.miny ++ "\"").data)
        (bbox_rect_svg b scale).data ∧
      List.IsInfix (("width=\"" ++ qstr b.w ++ "\" height=\"" ++ qstr b.h ++ "\"").data)
        (bbox_rect_svg b scale).data) ∧
    (∀ part_name part_ref pin_nets units symtx, (∀ l ∈ pin_nets, l = []) →
      gen_svg_comp part_name part_ref pin_nets units symtx =
        .ok (String.intercalate "\n"
          (units.flatMap (unit_fragments part_name part_ref symtx 0 10)))) := by
  refine ⟨rfl, ?_, ?_, ?_⟩
  · intro part_name part_ref symtx stub scale u
    simp [unit_fragments, show_bbox]
  · intro b scale
    refine ⟨?_, ?_, ?_⟩
    · unfold bbox_rect_svg
      iterate 2 apply str_infix_appl
      apply str_infix_appr
      apply str_infix_appr
      decide
    · unfold bbox_rect_svg
      iterate 6 apply str_infix_appl
      apply str_infix_appr
      exact List.infix_rfl
    · unfold bbox_rect_svg
      iterate 4 apply str_infix_appl
      apply str_infix_appr
      exact List.infix_rfl
  · intro part_name part_ref pin_nets units symtx h
    unfold gen_svg_comp
    rw [max_stub_len_calc_empty pin_nets h]

/-- Witness for C10 at a one-unit part with no nets. -/
theorem gen_svg_comp_unit_bbox_rect_witness :
    gen_svg_comp "X" "X1" [] [⟨1, ⟨0, 0, 1, 1⟩, [], []⟩] "" =
      .ok (String.intercalate "\n"
        (List.flatMap [⟨1, ⟨0, 0, 1, 1⟩, [], []⟩]
          (unit_fragments "X" "X1" "" 0 10))) ∧
    bbox_rect_svg (⟨0, 0, 1, 1⟩ : BBoxQ) 10 ∈
      unit_fragments "X" "X1" "" 0 10 ⟨1, ⟨0, 0, 1, 1⟩, [], []⟩ :=
  ⟨gen_svg_comp_unit_bbox_rect.2.2.2 "X" "X1" [] [⟨1, ⟨0, 0, 1, 1⟩, [], []⟩] ""
      (by simp),
   gen_svg_comp_unit_bbox_rect.2.1 "X" "X1" "" 0 10 ⟨1, ⟨0, 0, 1, 1⟩, [], []⟩⟩

end SkidlSvg
